import Mathlib

/-!
# Lustre Monitoring Tool: the diagnostic sink and the record dispatcher

A shallow embedding of `liblsd/error.c` (the diagnostic sink) and of
`utils/lmtdiagnose.c` (the record dispatcher), and the properties of the
specification settled on it.

Conventions of the embedding:

* a C string is the list of its bytes, `Str`;
* the file-scope variables of `error.c` are the fields of `Sink`;
* every call into the C library or into a collaborator is recorded, in order,
  as an `Event` of the trace carried by the state, so that "writes", "flushes"
  and "closes" are statements about the trace;
* what the C library and the build decide (`fopen`, `strerror`, `basename`,
  `HAVE_CEREBRO_H`) is a field of `Platform`; `strerror_r` is taken to fill its buffer
  (the XSI function);
* the collaborators of `lmtdiagnose.c` that are not in these two files (`sscanf`, the
  decoders of `liblmt`, the monitoring bus, the database layer) are the fields of `Collab`
  and the arguments `Fetched` and `Catalog`; `errno` is threaded through the scan;
* a function that can leave through `exit` or through undefined behaviour
  returns an `Outcome`;
* an `fclose` of a stream that is closed already, and a write to such a stream, are
  undefined in C as well; the trace records these calls as the code issues them, so a
  trace that holds them shows the defect, not a process that survives it;
* allocation (`malloc`, `strdup`, `list_iterator_create`) is taken to succeed.
-/

namespace Lmt

/-- A C string: its bytes up to the terminating NUL. -/
abbrev Str := List Char

/-! ## Constants of the system headers -/

/-- From `<limits.h>` (Linux): the size of a path buffer, terminating NUL included. -/
def PATH_MAX : Nat := 4096

/-- From `<syslog.h>`: severities. -/
def LOG_EMERG : Int := 0
def LOG_ALERT : Int := 1
def LOG_CRIT : Int := 2
def LOG_ERR : Int := 3
def LOG_WARNING : Int := 4
def LOG_NOTICE : Int := 5
def LOG_INFO : Int := 6
def LOG_DEBUG : Int := 7

/-- From `<syslog.h>`: facilities (`n << 3`). -/
def LOG_USER : Int := 8
def LOG_DAEMON : Int := 24
def LOG_LOCAL0 : Int := 128
def LOG_LOCAL1 : Int := 136
def LOG_LOCAL2 : Int := 144
def LOG_LOCAL3 : Int := 152
def LOG_LOCAL4 : Int := 160
def LOG_LOCAL5 : Int := 168
def LOG_LOCAL6 : Int := 176
def LOG_LOCAL7 : Int := 184

/-- What the C library and the build configuration decide. -/
structure Platform where
  /-- Whether `HAVE_CEREBRO_H` is defined. -/
  HAVE_CEREBRO_H : Bool
  /-- The call `fopen (path, "a")`: `none` when the stream opens, `some e` when it
  fails and leaves `e` in `errno`. -/
  fopen_a : Str → Option Int
  /-- The text `strerror` gives for an error number. -/
  strerror : Int → Str
  /-- The function `basename` of `<libgen.h>`. -/
  basename : Str → Str
  /-- A path of `PATH_MAX` bytes or more is refused by the system (`ENAMETOOLONG`). -/
  fopen_short : ∀ p, fopen_a p = none → p.length < PATH_MAX

/-! ## liblsd/error.c -/

/-- The type `match_t`: a token and its code. The `NULL` entry closing a table is the
end of the list. -/
structure match_t where
  s : Str
  n : Int
deriving DecidableEq, Repr

def facility_tab : List match_t :=
  [ ⟨"daemon".toList, LOG_DAEMON⟩,
    ⟨"local0".toList, LOG_LOCAL0⟩,
    ⟨"local1".toList, LOG_LOCAL1⟩,
    ⟨"local2".toList, LOG_LOCAL2⟩,
    ⟨"local3".toList, LOG_LOCAL3⟩,
    ⟨"local4".toList, LOG_LOCAL4⟩,
    ⟨"local5".toList, LOG_LOCAL5⟩,
    ⟨"local6".toList, LOG_LOCAL6⟩,
    ⟨"local7".toList, LOG_LOCAL7⟩,
    ⟨"user".toList, LOG_USER⟩ ]

def level_tab : List match_t :=
  [ ⟨"emerg".toList, LOG_EMERG⟩,
    ⟨"alert".toList, LOG_ALERT⟩,
    ⟨"crit".toList, LOG_CRIT⟩,
    ⟨"err".toList, LOG_ERR⟩,
    ⟨"warning".toList, LOG_WARNING⟩,
    ⟨"notice".toList, LOG_NOTICE⟩,
    ⟨"info".toList, LOG_INFO⟩,
    ⟨"debug".toList, LOG_DEBUG⟩ ]

/-- The enumeration `dest_t`. -/
inductive dest_t where
  | DEST_LOGF
  | DEST_SYSLOG
  | DEST_CEREBRO
deriving DecidableEq, Repr

/-- A non-null `FILE *`: one of the two standard streams, or the stream returned by the
`id`-th successful `fopen` of the sink. -/
inductive FILEp where
  | stdout
  | stderr
  | file (id : Nat)
deriving DecidableEq, Repr

/-- A call of `error.c` into the C library (or into the monitoring bus). -/
inductive Event where
  | fopen (path : Str) (result : Option FILEp)
  | fclose (f : FILEp)
  | fprintf (f : FILEp) (text : Str)
  | fflush (f : FILEp)
  | openlog (ident : Str) (facility : Int)
  | closelog
  | syslog (priority : Int) (text : Str)
  | cerebro_err_output (text : Str)
deriving DecidableEq, Repr

/-- The file-scope variables of `error.c`, with the trace of the calls made so far and
the number of streams opened so far. -/
structure Sink where
  prog : Str
  dest : dest_t
  filename : Option Str
  logf : Option FILEp
  syslog_facility : Int
  syslog_level : Int
  opened : Nat
  trace : List Event
deriving DecidableEq, Repr

/-- The static initialisers of `error.c`. -/
def Sink.initial : Sink :=
  { prog := "<unknown>".toList
    dest := dest_t.DEST_LOGF
    filename := none
    logf := none
    syslog_facility := LOG_DAEMON
    syslog_level := LOG_ERR
    opened := 0
    trace := [] }

/-- How a call ends. -/
inductive Outcome where
  /-- The call returned. -/
  | ret (st : Sink)
  /-- The call ended the process through `exit (status)`. -/
  | exit (status : Int) (st : Sink)
  /-- The call wrote through a null stream: undefined behaviour. -/
  | fault (st : Sink)
deriving DecidableEq, Repr

/-- The state in which a call ends. -/
def Outcome.state : Outcome → Sink
  | Outcome.ret st => st
  | Outcome.exit _ st => st
  | Outcome.fault st => st

/-- Record one call in the trace. -/
def Sink.emit (st : Sink) (e : Event) : Sink :=
  { st with trace := st.trace ++ [e] }

def _match (s : Str) : List match_t → Int
  | [] => -1
  | m :: ms => if m.s = s then m.n else _match s ms

def _rmatch (n : Int) : List match_t → Option Str
  | [] => none
  | m :: ms => if m.n = n then some m.s else _rmatch n ms

def err_init (P : Platform) (st : Sink) (p : Str) : Sink :=
  { st with prog := P.basename p }

def err_fini (st : Sink) : Sink :=
  let st1 :=
    match st.logf with
    | some f => if f ≠ FILEp.stdout ∧ f ≠ FILEp.stderr then st.emit (Event.fclose f) else st
    | none => st
  if st1.dest = dest_t.DEST_SYSLOG then st1.emit Event.closelog else st1

/-- The calls `vsnprintf (buf, size, fmt, ap)` and `snprintf (buf, size, fmt, ...)`, on the
expansion `s` of the format: at most `size - 1` bytes are stored. -/
def snprintf (size : Nat) (s : Str) : Str :=
  s.take (size - 1)

/-- The call `strerror_r (errnum, errbuf, size)`: the description, cut to the buffer. -/
def strerror_r (P : Platform) (errnum : Int) (size : Nat) : Str :=
  (P.strerror errnum).take (size - 1)

def _verr (P : Platform) (st : Sink) (errnum : Int) (msg : Str) : Outcome :=
  let errbuf := strerror_r P errnum 64
  let buf := snprintf 256 msg
  match st.dest with
  | dest_t.DEST_LOGF =>
    match st.logf with
    | some f =>
      Outcome.ret
        ((st.emit (Event.fprintf f (st.prog ++ ": ".toList ++ buf ++ ": ".toList ++ errbuf
            ++ "\n".toList))).emit (Event.fflush f))
    | none => Outcome.fault st
  | dest_t.DEST_SYSLOG =>
    Outcome.ret (st.emit (Event.syslog st.syslog_level (buf ++ ": ".toList ++ errbuf)))
  | dest_t.DEST_CEREBRO =>
    if P.HAVE_CEREBRO_H then
      Outcome.ret (st.emit (Event.cerebro_err_output (buf ++ ": ".toList ++ errbuf)))
    else Outcome.ret st

def _vlog (P : Platform) (st : Sink) (msg : Str) : Sink :=
  let buf := snprintf 256 msg
  match st.dest with
  | dest_t.DEST_LOGF =>
    let f := match st.logf with
      | some f => f
      | none => FILEp.stderr
    (({ st with logf := some f }).emit
      (Event.fprintf f (st.prog ++ ": ".toList ++ buf ++ "\n".toList))).emit (Event.fflush f)
  | dest_t.DEST_SYSLOG => st.emit (Event.syslog st.syslog_level buf)
  | dest_t.DEST_CEREBRO =>
    if P.HAVE_CEREBRO_H then st.emit (Event.cerebro_err_output buf) else st

/-- After the report, `exit (1)`. -/
def Outcome.thenExit : Outcome → Outcome
  | Outcome.ret st => Outcome.exit 1 st
  | o => o

/-- The function `err_exit`, with the value of `errno` at the call. -/
def err_exit (P : Platform) (st : Sink) (errno : Int) (msg : Str) : Outcome :=
  (_verr P st errno msg).thenExit

/-- The function `err`, with the value of `errno` at the call. -/
def err (P : Platform) (st : Sink) (errno : Int) (msg : Str) : Outcome :=
  _verr P st errno msg

def errn_exit (P : Platform) (st : Sink) (errnum : Int) (msg : Str) : Outcome :=
  (_verr P st errnum msg).thenExit

def errn (P : Platform) (st : Sink) (errnum : Int) (msg : Str) : Outcome :=
  _verr P st errnum msg

def msg_exit (P : Platform) (st : Sink) (m : Str) : Outcome :=
  Outcome.exit 1 (_vlog P st m)

def msg (P : Platform) (st : Sink) (m : Str) : Sink :=
  _vlog P st m

def _set_syslog_facility (P : Platform) (st : Sink) (s : Str) : Outcome :=
  let n := _match s facility_tab
  if n < 0 then msg_exit P st ("unknown syslog facility: ".toList ++ s)
  else Outcome.ret { st with syslog_facility := n }

def _set_syslog_level (P : Platform) (st : Sink) (s : Str) : Outcome :=
  let n := _match s level_tab
  if n < 0 then msg_exit P st ("unknown syslog level: ".toList ++ s)
  else Outcome.ret { st with syslog_level := n }

/-- The statements `lev = strchr (fac, c)` and `*lev++ = 0`: the text before the first
`c`, and the text after it when there is one. -/
def strchr_cut (c : Char) (fac : Str) : Str × Option Str :=
  match fac.dropWhile (fun x => x != c) with
  | [] => (fac, none)
  | _ :: lev => (fac.takeWhile (fun x => x != c), some lev)

def err_set_dest (P : Platform) (st0 : Sink) (s : Str) : Outcome :=
  let st := err_fini st0
  if s = "syslog".toList then
    Outcome.ret { st.emit (Event.openlog st.prog st.syslog_facility) with
      dest := dest_t.DEST_SYSLOG }
  else if "syslog:".toList.isPrefixOf s then
    let cut := strchr_cut ':' (s.drop 7)
    match _set_syslog_facility P st cut.1 with
    | Outcome.ret st1 =>
      let o := match cut.2 with
        | some lev => _set_syslog_level P st1 lev
        | none => Outcome.ret st1
      match o with
      | Outcome.ret st2 =>
        Outcome.ret { st2.emit (Event.openlog st2.prog st2.syslog_facility) with
          dest := dest_t.DEST_SYSLOG }
      | o2 => o2
    | o1 => o1
  else if P.HAVE_CEREBRO_H = true ∧ s = "cerebro".toList then
    Outcome.ret { st with dest := dest_t.DEST_CEREBRO }
  else if s = "stderr".toList then
    Outcome.ret { st with logf := some FILEp.stderr, dest := dest_t.DEST_LOGF }
  else if s = "stdout".toList then
    Outcome.ret { st with logf := some FILEp.stdout, dest := dest_t.DEST_LOGF }
  else
    match P.fopen_a s with
    | none =>
      let f := FILEp.file st.opened
      let st1 := { st.emit (Event.fopen s (some f)) with opened := st.opened + 1 }
      let st2 :=
        match st1.logf with
        | some g =>
          if g ≠ FILEp.stdout ∧ g ≠ FILEp.stderr then st1.emit (Event.fclose g) else st1
        | none => st1
      Outcome.ret { st2 with logf := some f, filename := some s, dest := dest_t.DEST_LOGF }
    | some errno =>
      err_exit P (st.emit (Event.fopen s none)) errno
        ("could not open ".toList ++ s ++ " for writing".toList)

/-- The function `err_get_dest`; `none` when a null pointer is handed to `%s`. -/
def err_get_dest (st : Sink) : Option Str :=
  match st.dest with
  | dest_t.DEST_SYSLOG =>
    match _rmatch st.syslog_facility facility_tab, _rmatch st.syslog_level level_tab with
    | some fac, some lev =>
      some (snprintf (PATH_MAX + 1) ("syslog:".toList ++ fac ++ ":".toList ++ lev))
    | _, _ => none
  | dest_t.DEST_LOGF =>
    if st.logf = some FILEp.stdout then some (snprintf (PATH_MAX + 1) "stdout".toList)
    else if st.logf = some FILEp.stderr then some (snprintf (PATH_MAX + 1) "stderr".toList)
    else if st.logf = none then some (snprintf (PATH_MAX + 1) "unknown".toList)
    else (st.filename).map (snprintf (PATH_MAX + 1))
  | dest_t.DEST_CEREBRO => some (snprintf (PATH_MAX + 1) "cerebro".toList)

/-- A call of the interface of `error.c`. -/
inductive Call where
  | err_init (p : Str)
  | err_fini
  | err_set_dest (s : Str)
  | msg (m : Str)
  | errn (errnum : Int) (m : Str)
deriving DecidableEq, Repr

/-- One call, from a state of the sink. -/
def exec (P : Platform) (st : Sink) : Call → Outcome
  | Call.err_init p => Outcome.ret (err_init P st p)
  | Call.err_fini => Outcome.ret (err_fini st)
  | Call.err_set_dest s => err_set_dest P st s
  | Call.msg m => Outcome.ret (msg P st m)
  | Call.errn errnum m => errn P st errnum m

/-- A sequence of calls; the process stops at the first call that does not return. -/
def run (P : Platform) : Sink → List Call → Outcome
  | st, [] => Outcome.ret st
  | st, c :: cs =>
    match exec P st c with
    | Outcome.ret st1 => run P st1 cs
    | o => o

/-- A state the sink can be in: the result of a sequence of calls that all returned,
from the static initialisers. -/
def Reachable (P : Platform) (st : Sink) : Prop :=
  ∃ cs : List Call, run P Sink.initial cs = Outcome.ret st

/-- The number of `fclose` calls on a stream in a trace. -/
def closeCount (f : FILEp) (tr : List Event) : Nat :=
  tr.count (Event.fclose f)

/-- The streams the sink opened: the results of its successful `fopen` calls. -/
def openedStreams : List Event → List FILEp
  | [] => []
  | Event.fopen _ (some f) :: tr => f :: openedStreams tr
  | _ :: tr => openedStreams tr

/-! ## utils/lmtdiagnose.c -/

/-- A value of the C type `float`, as the fraction `num / den`; `den = 0` stands for the
values that are no number (the infinities and NaN). -/
structure CFloat where
  num : Int
  den : Nat
deriving DecidableEq, Repr

/-- The comparison `vers == k` of a float with an integer constant. -/
def CFloat.eqInt (v : CFloat) (k : Int) : Bool :=
  v.den != 0 && v.num == k * v.den

/-- From `<limits.h>`: the bounds of the 32-bit type `int`. -/
def INT_MIN : Int := -2147483648
def INT_MAX : Int := 2147483647

/-- The integer part of a float that is a number: the fraction cut towards zero. -/
def CFloat.integerPart (v : CFloat) : Option Int :=
  if v.den = 0 then none else some (Int.tdiv v.num v.den)

/-- The conversion `(int)vers`: the integer part, when the float is a number and its
integer part fits in an `int`. Otherwise C leaves the conversion undefined; the value taken
here is the one the x86-64 conversion instruction gives, `INT_MIN`, for a value that is out
of range as for an infinity or a NaN. -/
def CFloat.toInt (v : CFloat) : Int :=
  match v.integerPart with
  | some t => if INT_MIN ≤ t ∧ t ≤ INT_MAX then t else INT_MIN
  | none => INT_MIN

/-- A metric of the monitoring bus (`cmetric_t`), as `lmt_cbr_get_name` and
`lmt_cbr_get_val` show it; the value may be `NULL`. -/
structure cmetric_t where
  name : Str
  val : Option Str
deriving DecidableEq, Repr

/-- The six `_parse_*` functions of `lmtdiagnose.c`. -/
inductive Decoder where
  | ost_v2
  | mdt_v1
  | router_v1
  | mds_v2
  | oss_v1
  | ost_v1
deriving DecidableEq, Repr

/-- What `lmt_cbr_get_metrics` gives: an error (with its `errstr`, possibly `NULL`, and the
`errno` it leaves), or the list of metrics. -/
inductive Fetched where
  | error (errstr : Option Str) (errno : Int)
  | ok (l : List cmetric_t)
deriving DecidableEq, Repr

/-- What `lmt_db_create_all` gives: an error, or the list of database handles, each shown
by its `lmt_db_name`. -/
inductive Catalog where
  | error (errstr : Option Str) (errno : Int)
  | ok (dbs : List Str)
deriving DecidableEq, Repr

/-- The collaborators of `lmtdiagnose.c`: the C library and the decoders of `liblmt`.
A decoder takes the value and the current `errno`, and gives its return value and the
`errno` it leaves. -/
structure Collab where
  /-- The call `sscanf (val, "%f;", &vers)`: `some v` when it returns 1 and stores `v`. -/
  sscanf_f : Str → Option CFloat
  strerror : Int → Str
  lmt_router_decode_v1 : Str → Int → Int × Int
  /-- On success (a return value that is not negative) the list `mdops` is given. -/
  lmt_mds_decode_v2 : Str → Int → Option (List Str) × Int
  lmt_mds_decode_v2_mdops : Str → Int → Int × Int
  lmt_oss_decode_v1 : Str → Int → Int × Int
  lmt_ost_decode_v1 : Str → Int → Int × Int

/-- What `lmtdiagnose` does that can be observed: its calls of the collaborators and its
`fprintf (stderr, ...)` calls, each with the line of `lmtdiagnose.c` it stands on. -/
inductive DiagEvent where
  | lmt_cbr_get_metrics
  | parse (d : Decoder) (s : Str) (retval : Int)
  | lmt_db_create_all
  | fprintf_stderr (line : Nat) (text : Str)
deriving DecidableEq, Repr

/-- The state of a scan: `errno` and the trace so far. -/
structure Scan where
  errno : Int
  out : List DiagEvent
deriving DecidableEq, Repr

/-- How a function of `lmtdiagnose.c` ends: it returns, or calls `exit`. -/
inductive DiagOutcome where
  | ret (st : Scan)
  | exit (status : Int) (st : Scan)
deriving DecidableEq, Repr

def DiagOutcome.state : DiagOutcome → Scan
  | DiagOutcome.ret st => st
  | DiagOutcome.exit _ st => st

/-- The exit status, when the process has ended. -/
def DiagOutcome.status : DiagOutcome → Option Int
  | DiagOutcome.ret _ => none
  | DiagOutcome.exit n _ => some n

def Scan.emit (st : Scan) (e : DiagEvent) : Scan :=
  { st with out := st.out ++ [e] }

/-- The expression `errstr ? errstr : strerror (errno)`. -/
def errtext (C : Collab) (errstr : Option Str) (errno : Int) : Str :=
  match errstr with
  | some s => s
  | none => C.strerror errno

/-- The conversion `%d`. -/
def fmt_d (n : Int) : Str :=
  (toString n).toList

def _parse_ost_v2 (_s : Str) (errno : Int) : Int × Int :=
  (-1, errno)

def _parse_mdt_v1 (_s : Str) (errno : Int) : Int × Int :=
  (-1, errno)

def _parse_router_v1 (C : Collab) (s : Str) (errno : Int) : Int × Int :=
  let r := C.lmt_router_decode_v1 s errno
  if r.1 < 0 then (-1, r.2) else (0, r.2)

/-- The loop of `_parse_mds_v2` over `mdops`: `false` at the first entry that does not
decode. -/
def mdops_loop (C : Collab) : List Str → Int → Bool × Int
  | [], errno => (true, errno)
  | op :: ops, errno =>
    let r := C.lmt_mds_decode_v2_mdops op errno
    if r.1 < 0 then (false, r.2) else mdops_loop C ops r.2

def _parse_mds_v2 (C : Collab) (s : Str) (errno : Int) : Int × Int :=
  match C.lmt_mds_decode_v2 s errno with
  | (none, e) => (-1, e)
  | (some mdops, e) =>
    let r := mdops_loop C mdops e
    if r.1 then (0, r.2) else (-1, r.2)

def _parse_oss_v1 (C : Collab) (s : Str) (errno : Int) : Int × Int :=
  let r := C.lmt_oss_decode_v1 s errno
  if r.1 < 0 then (-1, r.2) else (0, r.2)

def _parse_ost_v1 (C : Collab) (s : Str) (errno : Int) : Int × Int :=
  let r := C.lmt_ost_decode_v1 s errno
  if r.1 < 0 then (-1, r.2) else (0, r.2)

/-- The call of one of the `_parse_*` functions. -/
def Decoder.call (C : Collab) : Decoder → Str → Int → Int × Int
  | Decoder.ost_v2 => _parse_ost_v2
  | Decoder.mdt_v1 => _parse_mdt_v1
  | Decoder.router_v1 => _parse_router_v1 C
  | Decoder.mds_v2 => _parse_mds_v2 C
  | Decoder.oss_v1 => _parse_oss_v1 C
  | Decoder.ost_v1 => _parse_ost_v1 C

/-- The chain of comparisons of `check_cerebro` on the name and the version: the
`_parse_*` function chosen, or `none` in the final `else`. -/
def route (name : Str) (vers : CFloat) : Option Decoder :=
  if name = "lmt_ost".toList ∧ vers.eqInt 2 = true then some Decoder.ost_v2
  else if name = "lmt_mdt".toList ∧ vers.eqInt 1 = true then some Decoder.mdt_v1
  else if name = "lmt_router".toList ∧ vers.eqInt 1 = true then some Decoder.router_v1
  else if name = "lmt_mds".toList ∧ vers.eqInt 2 = true then some Decoder.mds_v2
  else if name = "lmt_oss".toList ∧ vers.eqInt 1 = true then some Decoder.oss_v1
  else if name = "lmt_ost".toList ∧ vers.eqInt 1 = true then some Decoder.ost_v1
  else none

/-- One turn of the `while` loop of `check_cerebro`. -/
def check_one (C : Collab) (prog : Str) (st : Scan) (c : cmetric_t) : Scan :=
  match c.val with
  | none => st
  | some val =>
    match C.sscanf_f val with
    | none =>
      st.emit (DiagEvent.fprintf_stderr 250
        (prog ++ ": error parsing metric version\n".toList))
    | some vers =>
      match route c.name vers with
      | none =>
        st.emit (DiagEvent.fprintf_stderr 267
          (prog ++ ": ".toList ++ c.name ++ "_v".toList ++ fmt_d vers.toInt
            ++ ": unknown metric version\n".toList))
      | some d =>
        let r := d.call C val st.errno
        let st1 := { st with errno := r.2 }.emit (DiagEvent.parse d val r.1)
        if r.1 < 0 then
          st1.emit (DiagEvent.fprintf_stderr 272
            (prog ++ ": ".toList ++ c.name ++ "_v".toList ++ fmt_d vers.toInt
              ++ ": ".toList ++ errtext C none st1.errno ++ "\n".toList))
        else st1

/-- The `while` loop of `check_cerebro`, over the metrics the iterator yields. -/
def check_loop (C : Collab) (prog : Str) : Scan → List cmetric_t → Scan
  | st, [] => st
  | st, c :: cs => check_loop C prog (check_one C prog st c) cs

def check_cerebro (C : Collab) (prog : Str) (st : Scan) (fetch : Fetched) : DiagOutcome :=
  let st0 := st.emit DiagEvent.lmt_cbr_get_metrics
  match fetch with
  | Fetched.error errstr errno =>
    DiagOutcome.exit 1
      ({ st0 with errno := errno }.emit (DiagEvent.fprintf_stderr 236
        (prog ++ ": lmt_ost: ".toList ++ errtext C errstr errno ++ "\n".toList)))
  | Fetched.ok l => DiagOutcome.ret (check_loop C prog st0 l)

/-- The loop of `check_mysql` over the database handles. -/
def mysql_loop (prog : Str) : Scan → List Str → Scan
  | st, [] => st
  | st, db :: dbs =>
    mysql_loop prog
      (st.emit (DiagEvent.fprintf_stderr 302 (prog ++ ": mysql: ".toList ++ db ++ "\n".toList)))
      dbs

def check_mysql (C : Collab) (prog : Str) (st : Scan) (cat : Catalog) : DiagOutcome :=
  let st0 := st.emit DiagEvent.lmt_db_create_all
  match cat with
  | Catalog.error errstr errno =>
    DiagOutcome.exit 1
      ({ st0 with errno := errno }.emit (DiagEvent.fprintf_stderr 290
        (prog ++ ": ".toList ++ errtext C errstr errno ++ "\n".toList)))
  | Catalog.ok dbs =>
    if dbs.isEmpty then
      DiagOutcome.exit 1
        (st0.emit (DiagEvent.fprintf_stderr 294
          (prog ++ ": mysql has no file systems configured\n".toList)))
    else DiagOutcome.ret (mysql_loop prog st0 dbs)

/-- The function `main` once the arguments are parsed: `prog` is `basename (argv[0])`,
`errno` the value at that point. -/
def main (C : Collab) (prog : Str) (errno : Int) (fetch : Fetched) (cat : Catalog) :
    DiagOutcome :=
  match check_cerebro C prog { errno := errno, out := [] } fetch with
  | DiagOutcome.ret st1 =>
    match check_mysql C prog st1 cat with
    | DiagOutcome.ret st2 => DiagOutcome.exit 0 st2
    | o => o
  | o => o

/-! ## Notions of the specification -/

/-- The facility tokens the specification lists: daemon, local0..local7, user. -/
def facility_tokens : List Str :=
  ["daemon", "local0", "local1", "local2", "local3", "local4", "local5", "local6", "local7",
    "user"].map String.toList

/-- The severity tokens the specification lists. -/
def severity_tokens : List Str :=
  ["emerg", "alert", "crit", "err", "warning", "notice", "info", "debug"].map String.toList

/-- A selector that is read as a path: none of the words `stdout`, `stderr`, `syslog`,
and not of the form `syslog:...`. -/
def IsPath (s : Str) : Prop :=
  s ≠ "stdout".toList ∧ s ≠ "stderr".toList ∧ s ≠ "syslog".toList ∧
    "syslog:".toList.isPrefixOf s = false

instance (s : Str) : Decidable (IsPath s) := by
  unfold IsPath
  infer_instance

/-- The valid selectors of the specification: `stdout`, `stderr`, `syslog`,
`syslog:<facility>`, `syslog:<facility>:<severity>` with tokens of the two lists, or a path
that can be opened for append. -/
def ValidSelector (P : Platform) (s : Str) : Prop :=
  s = "stdout".toList ∨ s = "stderr".toList ∨ s = "syslog".toList ∨
  (∃ fac ∈ facility_tokens, s = "syslog:".toList ++ fac) ∨
  (∃ fac ∈ facility_tokens, ∃ sev ∈ severity_tokens,
    s = "syslog:".toList ++ fac ++ ":".toList ++ sev) ∨
  (IsPath s ∧ P.fopen_a s = none)

instance (P : Platform) (s : Str) : Decidable (ValidSelector P s) := by
  unfold ValidSelector
  infer_instance

/-- The syslog parameters of a state are codes of the two tables. -/
def TabCodes (st : Sink) : Prop :=
  (∃ m ∈ facility_tab, m.n = st.syslog_facility) ∧ (∃ m ∈ level_tab, m.n = st.syslog_level)

instance (st : Sink) : Decidable (TabCodes st) := by
  unfold TabCodes
  infer_instance

/-- No `fclose` of a standard stream in the trace of a state. -/
def NoStdClose (st : Sink) : Prop :=
  Event.fclose FILEp.stdout ∉ st.trace ∧ Event.fclose FILEp.stderr ∉ st.trace

/-- The selectors on which `err_set_dest` is to return: the valid selectors of the
specification, and `cerebro` in a build with the monitoring bus. -/
def Selectable (P : Platform) (s : Str) : Prop :=
  ValidSelector P s ∨ (P.HAVE_CEREBRO_H = true ∧ s = "cerebro".toList)

instance (P : Platform) (s : Str) : Decidable (Selectable P s) := by
  unfold Selectable
  infer_instance

/-- The backend a selector names. -/
def selectedBackend (P : Platform) (s : Str) : dest_t :=
  if s = "syslog".toList ∨ "syslog:".toList.isPrefixOf s = true then dest_t.DEST_SYSLOG
  else if P.HAVE_CEREBRO_H = true ∧ s = "cerebro".toList then dest_t.DEST_CEREBRO
  else dest_t.DEST_LOGF

/-! ## Example platforms -/

/-- The text after the last `/`. -/
def lastComponent (p : Str) : Str :=
  (p.reverse.takeWhile (fun c => c != '/')).reverse

/-- A platform on which the files under `/tmp/` named below can be opened for append, and
nothing else (`EACCES`). -/
def tmpPlatform : Platform :=
  { HAVE_CEREBRO_H := true
    fopen_a := fun p =>
      if p = "/tmp/a.log".toList ∨ p = "/tmp/b.log".toList then none else some 13
    strerror := fun e =>
      if e = 11 then "Resource temporarily unavailable".toList
      else if e = 13 then "Permission denied".toList
      else "Unknown error".toList
    basename := lastComponent
    fopen_short := by
      intro p h
      dsimp only at h
      split_ifs at h with hp
      rcases hp with hp | hp <;> subst hp <;> decide }

/-- A platform whose description of error 11 (`EAGAIN`) takes 72 bytes, more than the 63
that fit in `errbuf` (as the descriptions of a translated message catalogue can). -/
def verbosePlatform : Platform :=
  { HAVE_CEREBRO_H := false
    fopen_a := fun _ => some 13
    strerror := fun e =>
      if e = 11 then
        "Resource temporarily unavailable; the operation may be tried again later".toList
      else "Unknown error".toList
    basename := lastComponent
    fopen_short := by
      intro p h
      simp at h }

/-- The sink after `err_init ("/usr/sbin/lmtd")` and `err_set_dest ("stdout")`. -/
def stdoutSink : Sink :=
  { Sink.initial with prog := "lmtd".toList, logf := some FILEp.stdout }

/-- The sink after `err_init ("/usr/sbin/lmtd")` and `err_set_dest ("syslog:local3:notice")`. -/
def syslogSink : Sink :=
  { Sink.initial with
    prog := "lmtd".toList
    dest := dest_t.DEST_SYSLOG
    syslog_facility := LOG_LOCAL3
    syslog_level := LOG_NOTICE
    trace := [Event.openlog "lmtd".toList LOG_LOCAL3] }

/-! ## Notions of the specification: the dispatcher -/

/-- The registered pairs of the specification, each with its decoder: lmt_ost 1 and 2,
lmt_mdt 1, lmt_router 1, lmt_mds 2, lmt_oss 1. -/
def registry : List (Str × Int × Decoder) :=
  [ ("lmt_ost".toList, 1, Decoder.ost_v1),
    ("lmt_ost".toList, 2, Decoder.ost_v2),
    ("lmt_mdt".toList, 1, Decoder.mdt_v1),
    ("lmt_router".toList, 1, Decoder.router_v1),
    ("lmt_mds".toList, 2, Decoder.mds_v2),
    ("lmt_oss".toList, 1, Decoder.oss_v1) ]

/-- The pair of a name and a parsed version is registered for a decoder: the version is
equal to the registered integer. -/
def Registered (name : Str) (v : CFloat) (d : Decoder) : Prop :=
  ∃ k : Int, (name, k, d) ∈ registry ∧ v.eqInt k = true

/-- The decoder registered for a name and a parsed version, looked up in the registry. -/
def lookup (name : Str) (v : CFloat) : Option Decoder :=
  (registry.find? (fun r => decide (name = r.1) && v.eqInt r.2.1)).map (fun r => r.2.2)

/-- A record with a malformed version token or an unregistered pair of name and version. -/
def badRecord (C : Collab) (c : cmetric_t) : Bool :=
  match c.val with
  | none => false
  | some val =>
    match C.sscanf_f val with
    | none => true
    | some v => (lookup c.name v).isNone

/-- The decoder a record is to be handed to, with the value handed: for a record with a
value, a well-formed version token and a registered pair. -/
def expectedCall (C : Collab) (c : cmetric_t) : Option (Decoder × Str) :=
  match c.val with
  | none => none
  | some val =>
    match C.sscanf_f val with
    | none => none
    | some v => (lookup c.name v).map (fun d => (d, val))

/-- The informational lines of `check_mysql` (line 302). -/
def isMysqlName : DiagEvent → Bool
  | DiagEvent.fprintf_stderr 302 _ => true
  | _ => false

/-- The decoder calls of a trace, in order. -/
def parseCalls : List DiagEvent → List (Decoder × Str)
  | [] => []
  | DiagEvent.parse d s _ :: tr => (d, s) :: parseCalls tr
  | _ :: tr => parseCalls tr

/-- The reports of a malformed version (line 250). -/
def isVersionParseFailure : DiagEvent → Bool
  | DiagEvent.fprintf_stderr 250 _ => true
  | _ => false

/-- The function `main` of `lmtdiagnose.c` in a process whose sink (the variables of
`error.c`) is in the state `sink`: no function of `lmtdiagnose.c` calls a function of
`error.c`, and its variables are `static`, so the sink is handed back as it was. -/
def diagnose (C : Collab) (prog : Str) (sink : Sink) (errno : Int) (fetch : Fetched)
    (cat : Catalog) : Sink × DiagOutcome :=
  (sink, main C prog errno fetch cat)

/-- An event of the dispatcher that is no report, or a report that starts with the program
name of the dispatcher. -/
def isOwnReport (prog : Str) : DiagEvent → Prop
  | DiagEvent.fprintf_stderr _ text => (prog ++ ": ".toList) <+: text
  | _ => True

/-! ## An example of collaborators -/

/-- The decimal digits at the head of a string: their value after `acc`, their number, and
the rest of the string. -/
def scanDigits : Str → Nat → Nat → Nat × Nat × Str
  | [], acc, n => (acc, n, [])
  | c :: cs, acc, n =>
    if c.isDigit then scanDigits cs (acc * 10 + (c.toNat - '0'.toNat)) (n + 1)
    else (acc, n, c :: cs)

/-- An unsigned decimal numeral `ddd` or `ddd.ddd` at the head of a string, read as
`sscanf` reads it with `%f`; the literal `;` of the format does not count in the value
`sscanf` returns. -/
def scanDecimal (s : Str) : Option CFloat :=
  match scanDigits s 0 0 with
  | (ip, n1, '.' :: rest) =>
    match scanDigits rest 0 0 with
    | (fp, n2, _) =>
      if n1 + n2 = 0 then none else some ⟨(ip * 10 ^ n2 + fp : Nat), 10 ^ n2⟩
  | (ip, n1, _) => if n1 = 0 then none else some ⟨(ip : Nat), 1⟩

/-- Collaborators for the examples: decoders that accept a value when it has the number
of `;` they expect, and leave `EINVAL` (22) otherwise. -/
def demoCollab : Collab :=
  { sscanf_f := scanDecimal
    strerror := fun e => if e = 22 then "Invalid argument".toList else "Unknown error".toList
    lmt_router_decode_v1 := fun s e => if s.count ';' = 4 then (0, e) else (-1, 22)
    lmt_mds_decode_v2 := fun s e => if s.count ';' = 9 then (some [], e) else (none, 22)
    lmt_mds_decode_v2_mdops := fun s e => if s.count ';' = 3 then (0, e) else (-1, 22)
    lmt_oss_decode_v1 := fun s e => if s.count ';' = 3 then (0, e) else (-1, 22)
    lmt_ost_decode_v1 := fun s e => if s.count ';' = 8 then (0, e) else (-1, 22) }

/-! # Theorems -/

/-! ## The tables and the selector grammar -/


theorem facility_tab_ok : ∀ m ∈ facility_tab,
    _match m.s facility_tab = m.n ∧ _rmatch m.n facility_tab = some m.s ∧ 0 ≤ m.n ∧
      ':' ∉ m.s ∧ m.s.length ≤ 7 := by
  decide

theorem level_tab_ok : ∀ m ∈ level_tab,
    _match m.s level_tab = m.n ∧ _rmatch m.n level_tab = some m.s ∧ 0 ≤ m.n ∧
      ':' ∉ m.s ∧ m.s.length ≤ 7 := by
  decide

theorem strchr_cut_none (c : Char) (s : Str) (h : c ∉ s) : strchr_cut c s = (s, none) := by
  have : s.dropWhile (fun x => x != c) = [] := by
    rw [List.dropWhile_eq_nil_iff]
    intro x hx
    simp
    rintro rfl
    exact h hx
  simp [strchr_cut, this]

theorem strchr_cut_some (c : Char) (s t : Str) (h : c ∉ s) :
    strchr_cut c (s ++ c :: t) = (s, some t) := by
  have h1 : (s ++ c :: t).dropWhile (fun x => x != c) = c :: t := by
    induction s with
    | nil => simp [List.dropWhile]
    | cons a s ih =>
      have ha : (a != c) = true := by
        simp only [bne_iff_ne]; exact fun e => h (by simp [e])
      have hs : c ∉ s := fun e => h (by simp [e])
      simp [List.dropWhile, ha, ih hs]
  have h2 : (s ++ c :: t).takeWhile (fun x => x != c) = s := by
    clear h1
    induction s with
    | nil => simp [List.takeWhile]
    | cons a s ih =>
      have ha : (a != c) = true := by
        simp only [bne_iff_ne]; exact fun e => h (by simp [e])
      have hs : c ∉ s := fun e => h (by simp [e])
      simp [List.takeWhile, ha, ih hs]
  simp [strchr_cut, h1, h2]

theorem syslog_colon_ne (x : Str) : "syslog:".toList ++ x ≠ "syslog".toList := by
  intro h
  have := congrArg List.length h
  simp at this

theorem syslog_colon_pre (x : Str) : "syslog:".toList.isPrefixOf ("syslog:".toList ++ x) = true := by
  simp

theorem syslog_colon_drop (x : Str) : ("syslog:".toList ++ x).drop 7 = x := by
  simp


theorem err_set_dest_colon (P : Platform) (st : Sink) (x : Str) :
    err_set_dest P st ("syslog:".toList ++ x) =
      match _set_syslog_facility P (err_fini st) (strchr_cut ':' x).1 with
      | Outcome.ret st1 =>
        match (match (strchr_cut ':' x).2 with
          | some lev => _set_syslog_level P st1 lev
          | none => Outcome.ret st1) with
        | Outcome.ret st2 =>
          Outcome.ret { st2.emit (Event.openlog st2.prog st2.syslog_facility) with
            dest := dest_t.DEST_SYSLOG }
        | o2 => o2
      | o1 => o1 := by
  unfold err_set_dest
  simp only [syslog_colon_ne, syslog_colon_pre, syslog_colon_drop, if_true, if_false]

@[simp] theorem err_fini_prog (st : Sink) : (err_fini st).prog = st.prog := by
  unfold err_fini Sink.emit
  dsimp only
  repeat' split
  all_goals rfl

@[simp] theorem err_fini_dest (st : Sink) : (err_fini st).dest = st.dest := by
  unfold err_fini Sink.emit
  dsimp only
  repeat' split
  all_goals rfl

@[simp] theorem err_fini_logf (st : Sink) : (err_fini st).logf = st.logf := by
  unfold err_fini Sink.emit
  dsimp only
  repeat' split
  all_goals rfl

@[simp] theorem err_fini_filename (st : Sink) : (err_fini st).filename = st.filename := by
  unfold err_fini Sink.emit
  dsimp only
  repeat' split
  all_goals rfl

@[simp] theorem err_fini_facility (st : Sink) :
    (err_fini st).syslog_facility = st.syslog_facility := by
  unfold err_fini Sink.emit
  dsimp only
  repeat' split
  all_goals rfl

@[simp] theorem err_fini_level (st : Sink) : (err_fini st).syslog_level = st.syslog_level := by
  unfold err_fini Sink.emit
  dsimp only
  repeat' split
  all_goals rfl

@[simp] theorem err_fini_opened (st : Sink) : (err_fini st).opened = st.opened := by
  unfold err_fini Sink.emit
  dsimp only
  repeat' split
  all_goals rfl

theorem mem_facility_tokens {fac : Str} (h : fac ∈ facility_tokens) :
    ∃ m ∈ facility_tab, m.s = fac := by
  have e : facility_tokens = facility_tab.map match_t.s := by decide
  rw [e, List.mem_map] at h
  exact h

theorem mem_severity_tokens {sev : Str} (h : sev ∈ severity_tokens) :
    ∃ m ∈ level_tab, m.s = sev := by
  have e : severity_tokens = level_tab.map match_t.s := by decide
  rw [e, List.mem_map] at h
  exact h

theorem set_fac (P : Platform) (st : Sink) (mf : match_t) (hf : mf ∈ facility_tab) :
    err_set_dest P st ("syslog:".toList ++ mf.s) =
      Outcome.ret { (err_fini st) with
        syslog_facility := mf.n
        dest := dest_t.DEST_SYSLOG
        trace := (err_fini st).trace ++ [Event.openlog st.prog mf.n] } := by
  obtain ⟨h1, -, h3, h4, -⟩ := facility_tab_ok mf hf
  rw [err_set_dest_colon, strchr_cut_none _ _ h4]
  simp [_set_syslog_facility, h1, not_lt.mpr h3, Sink.emit]

theorem set_fac_lev (P : Platform) (st : Sink) (mf ml : match_t) (hf : mf ∈ facility_tab)
    (hl : ml ∈ level_tab) :
    err_set_dest P st ("syslog:".toList ++ mf.s ++ ":".toList ++ ml.s) =
      Outcome.ret { (err_fini st) with
        syslog_facility := mf.n
        syslog_level := ml.n
        dest := dest_t.DEST_SYSLOG
        trace := (err_fini st).trace ++ [Event.openlog st.prog mf.n] } := by
  obtain ⟨h1, -, h3, h4, -⟩ := facility_tab_ok mf hf
  obtain ⟨k1, -, k3, -, -⟩ := level_tab_ok ml hl
  have e : "syslog:".toList ++ mf.s ++ ":".toList ++ ml.s
      = "syslog:".toList ++ (mf.s ++ ':' :: ml.s) := by simp
  rw [e, err_set_dest_colon, strchr_cut_some _ _ _ h4]
  simp [_set_syslog_facility, _set_syslog_level, h1, k1, not_lt.mpr h3, not_lt.mpr k3, Sink.emit]

theorem set_stdout (P : Platform) (st : Sink) :
    err_set_dest P st "stdout".toList =
      Outcome.ret { (err_fini st) with logf := some FILEp.stdout, dest := dest_t.DEST_LOGF } := by
  simp [err_set_dest]

theorem set_stderr (P : Platform) (st : Sink) :
    err_set_dest P st "stderr".toList =
      Outcome.ret { (err_fini st) with logf := some FILEp.stderr, dest := dest_t.DEST_LOGF } := by
  simp [err_set_dest]

theorem set_cerebro (P : Platform) (st : Sink) (h : P.HAVE_CEREBRO_H = true) :
    err_set_dest P st "cerebro".toList =
      Outcome.ret { (err_fini st) with dest := dest_t.DEST_CEREBRO } := by
  simp [err_set_dest, h]

theorem set_path (P : Platform) (st : Sink) (s : Str) (hp : IsPath s)
    (hc : ¬ (P.HAVE_CEREBRO_H = true ∧ s = "cerebro".toList)) (ho : P.fopen_a s = none) :
    err_set_dest P st s =
      Outcome.ret { (err_fini st) with
        logf := some (FILEp.file st.opened)
        filename := some s
        dest := dest_t.DEST_LOGF
        opened := st.opened + 1
        trace := (err_fini st).trace ++ Event.fopen s (some (FILEp.file st.opened)) ::
          (match st.logf with
            | some (FILEp.file i) => [Event.fclose (FILEp.file i)]
            | _ => []) } := by
  obtain ⟨h1, h2, h3, h4⟩ := hp
  unfold err_set_dest
  simp only [h1, h2, h3, h4, hc, ho, if_false, Bool.false_eq_true, Sink.emit]
  rcases hl : st.logf with _ | f
  · simp [hl]
  · cases f <;> simp [hl]

theorem set_syslog (P : Platform) (st : Sink) :
    err_set_dest P st "syslog".toList =
      Outcome.ret { (err_fini st) with
        dest := dest_t.DEST_SYSLOG
        trace := (err_fini st).trace ++ [Event.openlog st.prog st.syslog_facility] } := by
  simp [err_set_dest, Sink.emit]

theorem take_of_le (n : Nat) (s : Str) (h : s.length ≤ n) : snprintf (n + 1) s = s := by
  simp [snprintf, List.take_of_length_le h]

theorem get_syslog (st : Sink) (mf ml : match_t) (hf : mf ∈ facility_tab)
    (hl : ml ∈ level_tab) (hd : st.dest = dest_t.DEST_SYSLOG)
    (h1 : st.syslog_facility = mf.n) (h2 : st.syslog_level = ml.n) :
    err_get_dest st = some ("syslog:".toList ++ mf.s ++ ":".toList ++ ml.s) := by
  obtain ⟨-, a2, -, -, a5⟩ := facility_tab_ok mf hf
  obtain ⟨-, b2, -, -, b5⟩ := level_tab_ok ml hl
  unfold err_get_dest
  simp only [hd, h1, h2, a2, b2]
  rw [take_of_le]
  simp [PATH_MAX]
  omega

theorem get_std (st : Sink) (hd : st.dest = dest_t.DEST_LOGF) :
    (st.logf = some FILEp.stdout → err_get_dest st = some "stdout".toList) ∧
    (st.logf = some FILEp.stderr → err_get_dest st = some "stderr".toList) := by
  constructor <;> intro h <;> simp [err_get_dest, hd, h, snprintf, PATH_MAX]

theorem get_file (P : Platform) (st : Sink) (i : Nat) (p : Str)
    (hd : st.dest = dest_t.DEST_LOGF) (hf : st.logf = some (FILEp.file i))
    (hn : st.filename = some p) (ho : P.fopen_a p = none) : err_get_dest st = some p := by
  have := P.fopen_short p ho
  unfold err_get_dest
  simp only [hd, hf, hn]
  simp
  exact take_of_le _ _ (by omega)

theorem get_cerebro (st : Sink) (hd : st.dest = dest_t.DEST_CEREBRO) :
    err_get_dest st = some "cerebro".toList := by
  simp [err_get_dest, hd, snprintf, PATH_MAX]


theorem match_code (s : Str) (tab : List match_t) :
    _match s tab = -1 ∨ ∃ m ∈ tab, m.s = s ∧ m.n = _match s tab := by
  induction tab with
  | nil => left; rfl
  | cons m ms ih =>
    unfold _match
    split_ifs with h
    · right; exact ⟨m, by simp, h, rfl⟩
    · rcases ih with ih | ⟨m2, hm2, h2⟩
      · left; exact ih
      · right; exact ⟨m2, by simp [hm2], h2⟩

theorem match_code_of_nonneg (s : Str) (tab : List match_t) (h : ¬ _match s tab < 0) :
    ∃ m ∈ tab, m.n = _match s tab := by
  rcases match_code s tab with e | ⟨m, hm, -, e⟩
  · rw [e] at h; exact absurd (by decide) h
  · exact ⟨m, hm, e⟩

theorem thenExit_ne_ret (o : Outcome) (st : Sink) : o.thenExit ≠ Outcome.ret st := by
  cases o <;> simp [Outcome.thenExit]

theorem set_facility_ret (P : Platform) (st st1 : Sink) (s : Str)
    (h : _set_syslog_facility P st s = Outcome.ret st1) :
    ¬ _match s facility_tab < 0 ∧ st1 = { st with syslog_facility := _match s facility_tab } := by
  unfold _set_syslog_facility at h
  by_cases hn : _match s facility_tab < 0
  · simp [hn, msg_exit] at h
  · simp [hn] at h
    exact ⟨hn, h.symm⟩

theorem set_level_ret (P : Platform) (st st1 : Sink) (s : Str)
    (h : _set_syslog_level P st s = Outcome.ret st1) :
    ¬ _match s level_tab < 0 ∧ st1 = { st with syslog_level := _match s level_tab } := by
  unfold _set_syslog_level at h
  by_cases hn : _match s level_tab < 0
  · simp [hn, msg_exit] at h
  · simp [hn] at h
    exact ⟨hn, h.symm⟩

theorem err_fini_codes (st : Sink) (h : TabCodes st) : TabCodes (err_fini st) := by
  simpa [TabCodes] using h

theorem prefix_split (s : Str) (h : "syslog:".toList.isPrefixOf s = true) :
    s = "syslog:".toList ++ s.drop 7 := by
  rw [List.isPrefixOf_iff_prefix] at h
  obtain ⟨t, rfl⟩ := h
  simp

theorem err_set_dest_codes (P : Platform) (st st1 : Sink) (s : Str) (h : TabCodes st)
    (hr : err_set_dest P st s = Outcome.ret st1) : TabCodes st1 := by
  have hf := err_fini_codes st h
  by_cases h1 : s = "syslog".toList
  · subst h1
    rw [set_syslog] at hr
    injection hr with hr
    subst hr
    simpa [TabCodes] using h
  by_cases h2 : "syslog:".toList.isPrefixOf s = true
  · rw [prefix_split s h2, err_set_dest_colon] at hr
    generalize s.drop 7 = x at hr
    rcases ha : _set_syslog_facility P (err_fini st) (strchr_cut ':' x).1 with a | ⟨n, a⟩ | a
    · obtain ⟨hn, rfl⟩ := set_facility_ret _ _ _ _ ha
      have hcode := match_code_of_nonneg _ _ hn
      rw [ha] at hr
      rcases hc : (strchr_cut ':' x).2 with _ | lev
      · simp only [hc] at hr
        injection hr with hr
        subst hr
        exact ⟨by simpa [Sink.emit] using hcode, by simpa [TabCodes, Sink.emit] using h.2⟩
      · simp only [hc] at hr
        rcases hb : _set_syslog_level P
            { err_fini st with syslog_facility := _match (strchr_cut ':' x).1 facility_tab }
            lev with b | ⟨n, b⟩ | b
        · obtain ⟨hm, rfl⟩ := set_level_ret _ _ _ _ hb
          have hcode2 := match_code_of_nonneg _ _ hm
          rw [hb] at hr
          injection hr with hr
          subst hr
          exact ⟨by simpa [Sink.emit] using hcode, by simpa [Sink.emit] using hcode2⟩
        · rw [hb] at hr; simp at hr
        · rw [hb] at hr; simp at hr
    · rw [ha] at hr; simp at hr
    · rw [ha] at hr; simp at hr
  · unfold err_set_dest at hr
    simp only [h1, h2, if_false, Bool.false_eq_true] at hr
    split_ifs at hr
    · injection hr with hr; subst hr; simpa [TabCodes] using h
    · injection hr with hr; subst hr; simpa [TabCodes] using h
    · injection hr with hr; subst hr; simpa [TabCodes] using h
    · rcases ho : P.fopen_a s with _ | e
      · simp only [ho] at hr
        injection hr with hr
        subst hr
        rcases hl : st.logf with _ | g
        · simpa [TabCodes, Sink.emit, hl] using h
        · by_cases hg : g ≠ FILEp.stdout ∧ g ≠ FILEp.stderr <;>
            simpa [TabCodes, Sink.emit, hl, hg] using h
      · simp only [ho, err_exit] at hr
        exact absurd hr (thenExit_ne_ret _ _)


theorem exec_codes (P : Platform) (st st1 : Sink) (c : Call) (h : TabCodes st)
    (hr : exec P st c = Outcome.ret st1) : TabCodes st1 := by
  cases c with
  | err_init p =>
    simp only [exec] at hr
    injection hr with hr; subst hr; simpa [TabCodes, err_init] using h
  | err_fini =>
    simp only [exec] at hr
    injection hr with hr; subst hr; exact err_fini_codes st h
  | err_set_dest s => exact err_set_dest_codes P st st1 s h hr
  | msg m =>
    simp only [exec, msg, _vlog] at hr
    injection hr with hr
    subst hr
    rcases hd : st.dest <;> simp only [hd]
    · simpa [TabCodes, Sink.emit] using h
    · simpa [TabCodes, Sink.emit] using h
    · split_ifs <;> simpa [TabCodes, Sink.emit] using h
  | errn e m =>
    simp only [exec, errn, _verr] at hr
    rcases hd : st.dest <;> simp only [hd] at hr
    · rcases hl : st.logf with _ | f <;> simp only [hl] at hr
      · simp at hr
      · injection hr with hr; subst hr; simpa [TabCodes, Sink.emit] using h
    · injection hr with hr; subst hr; simpa [TabCodes, Sink.emit] using h
    · split_ifs at hr <;> injection hr with hr <;> subst hr <;>
        simpa [TabCodes, Sink.emit] using h

theorem run_codes (P : Platform) (cs : List Call) :
    ∀ st st1 : Sink, TabCodes st → run P st cs = Outcome.ret st1 → TabCodes st1 := by
  induction cs with
  | nil =>
    intro st st1 h hr
    simp only [run] at hr
    injection hr with hr; subst hr; exact h
  | cons c cs ih =>
    intro st st1 h hr
    simp only [run] at hr
    rcases he : exec P st c with a | ⟨n, a⟩ | a
    · rw [he] at hr
      exact ih a st1 (exec_codes P st a c h he) hr
    · rw [he] at hr; simp at hr
    · rw [he] at hr; simp at hr

theorem reachable_codes (P : Platform) (st : Sink) (h : Reachable P st) : TabCodes st := by
  obtain ⟨cs, hcs⟩ := h
  exact run_codes P cs Sink.initial st (by unfold TabCodes; decide) hcs


theorem tab_token_mem (mf ml : match_t) (hf : mf ∈ facility_tab) (hl : ml ∈ level_tab) :
    mf.s ∈ facility_tokens ∧ ml.s ∈ severity_tokens := by
  have e1 : facility_tokens = facility_tab.map match_t.s := by decide
  have e2 : severity_tokens = level_tab.map match_t.s := by decide
  rw [e1, e2]
  exact ⟨List.mem_map_of_mem _ hf, List.mem_map_of_mem _ hl⟩

/-- C1, on the code: re-applying the selector `err_get_dest` gives closes a stream a second
time. After `err_set_dest ("/tmp/a.log")`, `err_get_dest` gives `/tmp/a.log`, and
`err_set_dest` of it closes the first stream in `err_fini` and again after the `fopen`;
after `err_set_dest ("/tmp/a.log")` and `err_set_dest ("syslog")`, `err_get_dest` gives
`syslog:daemon:err`, and `err_set_dest` of it closes the stream, still held by `logf`, in
`err_fini` once more. -/
theorem round_trip_closes_stream_twice :
    err_get_dest
        (run tmpPlatform Sink.initial [Call.err_set_dest "/tmp/a.log".toList]).state =
      some "/tmp/a.log".toList ∧
    (run tmpPlatform Sink.initial
        [Call.err_set_dest "/tmp/a.log".toList, Call.err_set_dest "/tmp/a.log".toList]).state.trace =
      [Event.fopen "/tmp/a.log".toList (some (FILEp.file 0)),
       Event.fclose (FILEp.file 0),
       Event.fopen "/tmp/a.log".toList (some (FILEp.file 1)),
       Event.fclose (FILEp.file 0)] ∧
    err_get_dest
        (run tmpPlatform Sink.initial
          [Call.err_set_dest "/tmp/a.log".toList, Call.err_set_dest "syslog".toList]).state =
      some "syslog:daemon:err".toList ∧
    (run tmpPlatform Sink.initial
        [Call.err_set_dest "/tmp/a.log".toList, Call.err_set_dest "syslog".toList,
         Call.err_set_dest "syslog:daemon:err".toList]).state.trace =
      [Event.fopen "/tmp/a.log".toList (some (FILEp.file 0)),
       Event.fclose (FILEp.file 0),
       Event.openlog "<unknown>".toList LOG_DAEMON,
       Event.fclose (FILEp.file 0),
       Event.closelog,
       Event.openlog "<unknown>".toList LOG_DAEMON] := by
  decide

/-! ## The format of a report on a stream -/

/-- C2, as stated, fails: on a platform whose description of error 11 is longer than 63
bytes, `errn (11, "retry")` on the sink set to `stdout` writes the line with the
description cut to the 63 bytes of `errbuf`, not the line ending in `strerror (11)`. -/
theorem errn_cuts_long_description :
    run verbosePlatform Sink.initial
        [Call.err_init "/usr/sbin/lmtd".toList, Call.err_set_dest "stdout".toList]
      = Outcome.ret stdoutSink ∧
    stdoutSink.dest = dest_t.DEST_LOGF ∧ "retry".toList.length ≤ 255 ∧
    errn verbosePlatform stdoutSink 11 "retry".toList =
      Outcome.ret { stdoutSink with trace :=
        [Event.fprintf FILEp.stdout
          "lmtd: retry: Resource temporarily unavailable; the operation may be tried ag\n".toList,
         Event.fflush FILEp.stdout] } ∧
    errn verbosePlatform stdoutSink 11 "retry".toList ≠
      Outcome.ret { stdoutSink with trace :=
        [Event.fprintf FILEp.stdout
          ("lmtd".toList ++ ": ".toList ++ "retry".toList ++ ": ".toList ++
            verbosePlatform.strerror 11 ++ "\n".toList),
         Event.fflush FILEp.stdout] } := by
  decide

/-- C2, amended. With the File variant active on a stream `f`, for every message `m` of at
most 255 bytes and every error number `e`, `errn (e, m)` returns after writing exactly the
line `prog: m: d` to `f` and flushing `f`, where `d` is the first 63 bytes of
`strerror (e)`, hence `strerror (e)` itself when it has at most 63 bytes; and `msg (m)`
writes exactly the line `prog: m` to `f` and flushes `f`; neither changes anything else in
the sink. -/
theorem file_sink_format (P : Platform) (st : Sink) (f : FILEp) (e : Int) (m : Str)
    (hd : st.dest = dest_t.DEST_LOGF) (hf : st.logf = some f) (hm : m.length ≤ 255) :
    errn P st e m = Outcome.ret { st with trace := st.trace ++
      [Event.fprintf f (st.prog ++ ": ".toList ++ m ++ ": ".toList ++ (P.strerror e).take 63
        ++ "\n".toList),
       Event.fflush f] } ∧
    ((P.strerror e).length ≤ 63 →
      errn P st e m = Outcome.ret { st with trace := st.trace ++
        [Event.fprintf f (st.prog ++ ": ".toList ++ m ++ ": ".toList ++ P.strerror e
          ++ "\n".toList),
         Event.fflush f] }) ∧
    msg P st m = { st with trace := st.trace ++
      [Event.fprintf f (st.prog ++ ": ".toList ++ m ++ "\n".toList), Event.fflush f] } := by
  have h1 : snprintf 256 m = m := by simp [snprintf, List.take_of_length_le hm]
  have h2 : strerror_r P e 64 = (P.strerror e).take 63 := rfl
  refine ⟨?_, fun he => ?_, ?_⟩
  · simp [errn, _verr, hd, hf, h1, h2, Sink.emit]
  · rw [List.take_of_length_le he] at h2
    simp [errn, _verr, hd, hf, h1, h2, Sink.emit]
  · simp [msg, _vlog, hd, hf, h1, Sink.emit]

/-- C2, amended, at `errn (EAGAIN, "retry")` and `msg ("retry")` on the sink set to
`stdout`. -/
theorem file_sink_format_witness :
    stdoutSink.dest = dest_t.DEST_LOGF ∧ stdoutSink.logf = some FILEp.stdout ∧
    "retry".toList.length ≤ 255 ∧ (tmpPlatform.strerror 11).length ≤ 63 ∧
    errn tmpPlatform stdoutSink 11 "retry".toList = Outcome.ret { stdoutSink with trace :=
      [Event.fprintf FILEp.stdout "lmtd: retry: Resource temporarily unavailable\n".toList,
       Event.fflush FILEp.stdout] } ∧
    msg tmpPlatform stdoutSink "retry".toList = { stdoutSink with trace :=
      [Event.fprintf FILEp.stdout "lmtd: retry\n".toList, Event.fflush FILEp.stdout] } :=
  have h := file_sink_format tmpPlatform stdoutSink FILEp.stdout 11 "retry".toList rfl rfl
    (by decide)
  ⟨rfl, rfl, by decide, by decide, h.2.1 (by decide), h.2.2⟩

/-! ## The streams the sink closes -/


theorem emit_noStdClose (st : Sink) (e : Event) (h : NoStdClose st)
    (h1 : e ≠ Event.fclose FILEp.stdout) (h2 : e ≠ Event.fclose FILEp.stderr) :
    NoStdClose (st.emit e) := by
  obtain ⟨a, b⟩ := h
  constructor <;> simp only [Sink.emit, List.mem_append, List.mem_singleton, not_or]
  · exact ⟨a, fun x => h1 x.symm⟩
  · exact ⟨b, fun x => h2 x.symm⟩

theorem err_fini_noStdClose (st : Sink) (h : NoStdClose st) : NoStdClose (err_fini st) := by
  unfold err_fini
  dsimp only
  have key : NoStdClose (match st.logf with
      | some f =>
        if f ≠ FILEp.stdout ∧ f ≠ FILEp.stderr then st.emit (Event.fclose f) else st
      | none => st) := by
    split
    · split_ifs with hf
      · exact emit_noStdClose _ _ h (by simpa using hf.1) (by simpa using hf.2)
      · exact h
    · exact h
  split_ifs
  · exact emit_noStdClose _ _ key (by simp) (by simp)
  · exact key

theorem vlog_noStdClose (P : Platform) (st : Sink) (m : Str) (h : NoStdClose st) :
    NoStdClose (_vlog P st m) := by
  unfold _vlog
  dsimp only
  split
  · exact emit_noStdClose _ _ (emit_noStdClose _ _ h (by simp) (by simp)) (by simp) (by simp)
  · exact emit_noStdClose _ _ h (by simp) (by simp)
  · split_ifs
    · exact emit_noStdClose _ _ h (by simp) (by simp)
    · exact h

theorem verr_noStdClose (P : Platform) (st : Sink) (e : Int) (m : Str) (h : NoStdClose st) :
    NoStdClose (_verr P st e m).state := by
  unfold _verr
  dsimp only
  split
  · split
    · exact emit_noStdClose _ _ (emit_noStdClose _ _ h (by simp) (by simp)) (by simp) (by simp)
    · exact h
  · exact emit_noStdClose _ _ h (by simp) (by simp)
  · split_ifs
    · exact emit_noStdClose _ _ h (by simp) (by simp)
    · exact h

theorem thenExit_state (o : Outcome) : o.thenExit.state = o.state := by
  cases o <;> rfl

theorem set_facility_noStdClose (P : Platform) (st : Sink) (s : Str) (h : NoStdClose st) :
    NoStdClose (_set_syslog_facility P st s).state := by
  unfold _set_syslog_facility
  dsimp only
  split_ifs
  · exact vlog_noStdClose P st _ h
  · exact h

theorem set_level_noStdClose (P : Platform) (st : Sink) (s : Str) (h : NoStdClose st) :
    NoStdClose (_set_syslog_level P st s).state := by
  unfold _set_syslog_level
  dsimp only
  split_ifs
  · exact vlog_noStdClose P st _ h
  · exact h

theorem err_set_dest_noStdClose (P : Platform) (st : Sink) (s : Str) (h : NoStdClose st) :
    NoStdClose (err_set_dest P st s).state := by
  have hf := err_fini_noStdClose st h
  unfold err_set_dest
  dsimp only
  split_ifs with h1 h2 h3 h4 h5
  · exact emit_noStdClose _ _ hf (by simp) (by simp)
  · have ha := set_facility_noStdClose P (err_fini st) (strchr_cut ':' (List.drop 7 s)).1 hf
    rcases hx : _set_syslog_facility P (err_fini st) (strchr_cut ':' (List.drop 7 s)).1
      with a | ⟨n, a⟩ | a
    · rw [hx] at ha
      dsimp only
      rcases hc : (strchr_cut ':' (List.drop 7 s)).2 with _ | lev
      · exact emit_noStdClose _ _ ha (by simp) (by simp)
      · dsimp only
        have hb := set_level_noStdClose P a lev ha
        rcases hy : _set_syslog_level P a lev with b | ⟨n, b⟩ | b
        · rw [hy] at hb
          exact emit_noStdClose _ _ hb (by simp) (by simp)
        · rw [hy] at hb; exact hb
        · rw [hy] at hb; exact hb
    · rw [hx] at ha; exact ha
    · rw [hx] at ha; exact ha
  · exact hf
  · exact hf
  · exact hf
  · split
    · have hopen : NoStdClose { (err_fini st).emit
          (Event.fopen s (some (FILEp.file (err_fini st).opened))) with
          opened := (err_fini st).opened + 1 } :=
        emit_noStdClose _ _ hf (by simp) (by simp)
      split
      · split_ifs with hg
        · exact emit_noStdClose _ _ hopen (by simpa using hg.1) (by simpa using hg.2)
        · exact hopen
      · exact hopen
    · unfold err_exit
      rw [thenExit_state]
      exact verr_noStdClose P _ _ _ (emit_noStdClose _ _ hf (by simp) (by simp))


theorem exec_noStdClose (P : Platform) (st : Sink) (c : Call) (h : NoStdClose st) :
    NoStdClose (exec P st c).state := by
  cases c with
  | err_init p => exact h
  | err_fini => exact err_fini_noStdClose st h
  | err_set_dest s => exact err_set_dest_noStdClose P st s h
  | msg m => exact vlog_noStdClose P st m h
  | errn e m => exact verr_noStdClose P st e m h

theorem run_noStdClose (P : Platform) (cs : List Call) :
    ∀ st : Sink, NoStdClose st → NoStdClose (run P st cs).state := by
  induction cs with
  | nil => intro st h; exact h
  | cons c cs ih =>
    intro st h
    have hc := exec_noStdClose P st c h
    simp only [run]
    rcases he : exec P st c with a | ⟨n, a⟩ | a
    · rw [he] at hc
      exact ih a hc
    · rw [he] at hc; exact hc
    · rw [he] at hc; exact hc

/-- C7. Reserved streams are never closed: after every sequence of calls of the sink
(`err_init`, `err_fini`, `err_set_dest` with any selector, `msg`, `errn`) from the initial
state, run until a call ends the process, the trace holds no `fclose` of the standard
output or of the standard error stream. -/
theorem std_streams_never_closed (P : Platform) (cs : List Call) :
    Event.fclose FILEp.stdout ∉ (run P Sink.initial cs).state.trace ∧
    Event.fclose FILEp.stderr ∉ (run P Sink.initial cs).state.trace :=
  run_noStdClose P cs Sink.initial (by constructor <;> simp [Sink.initial])

/-- C6, on the code: `err_set_dest ("/tmp/a.log")`, `err_set_dest ("/tmp/b.log")`,
`err_fini ()` closes the stream opened on `/tmp/a.log` twice, once in the `err_fini` that
opens `err_set_dest` and once more after the `fopen`, since `logf` still holds it. -/
theorem file_closed_twice :
    (run tmpPlatform Sink.initial
      [Call.err_set_dest "/tmp/a.log".toList, Call.err_set_dest "/tmp/b.log".toList,
       Call.err_fini]).state.trace =
      [Event.fopen "/tmp/a.log".toList (some (FILEp.file 0)),
       Event.fclose (FILEp.file 0),
       Event.fopen "/tmp/b.log".toList (some (FILEp.file 1)),
       Event.fclose (FILEp.file 0),
       Event.fclose (FILEp.file 1)] ∧
    closeCount (FILEp.file 0)
      (run tmpPlatform Sink.initial
        [Call.err_set_dest "/tmp/a.log".toList, Call.err_set_dest "/tmp/b.log".toList,
         Call.err_fini]).state.trace = 2 := by
  decide

/-- A stream left for the system log is closed again by the next `err_fini`. -/
theorem file_closed_again_after_syslog :
    (run tmpPlatform Sink.initial
      [Call.err_set_dest "/tmp/a.log".toList, Call.err_set_dest "syslog".toList,
       Call.err_fini]).state.trace =
      [Event.fopen "/tmp/a.log".toList (some (FILEp.file 0)),
       Event.fclose (FILEp.file 0),
       Event.openlog "<unknown>".toList 24,
       Event.fclose (FILEp.file 0),
       Event.closelog] := by
  decide

/-! ## The selectors on which `err_set_dest` returns -/


theorem strchr_cut_spec (c : Char) (x : Str) :
    (strchr_cut c x = (x, none) ∧ c ∉ x) ∨
    (∃ a l, strchr_cut c x = (a, some l) ∧ x = a ++ c :: l ∧ c ∉ a) := by
  by_cases h : c ∈ x
  · right
    obtain ⟨a, l, rfl, ha⟩ := List.eq_append_cons_of_mem h
    exact ⟨a, l, strchr_cut_some c a l ha, rfl, ha⟩
  · left
    exact ⟨strchr_cut_none c x h, h⟩

/-- What a valid selector of the form `syslog:x` is cut into. -/
theorem selectable_colon (P : Platform) (x : Str) (h : Selectable P ("syslog:".toList ++ x)) :
    (∃ mf ∈ facility_tab, strchr_cut ':' x = (mf.s, none)) ∨
    (∃ mf ∈ facility_tab, ∃ ml ∈ level_tab, strchr_cut ':' x = (mf.s, some ml.s)) := by
  rcases h with (h | h | h | ⟨fac, hfac, h⟩ | ⟨fac, hfac, sev, hsev, h⟩ | ⟨hp, -⟩) | ⟨-, h⟩
  · have := congrArg List.length h; simp at this
  · have := congrArg List.length h; simp at this
  · exact absurd h (syslog_colon_ne x)
  · obtain ⟨mf, hmf, rfl⟩ := mem_facility_tokens hfac
    have hx : x = mf.s := List.append_cancel_left h
    subst hx
    exact Or.inl ⟨mf, hmf, strchr_cut_none _ _ (facility_tab_ok mf hmf).2.2.2.1⟩
  · obtain ⟨mf, hmf, rfl⟩ := mem_facility_tokens hfac
    obtain ⟨ml, hml, rfl⟩ := mem_severity_tokens hsev
    have hx : x = mf.s ++ ':' :: ml.s := by
      have h0 : "syslog:".toList ++ x = "syslog:".toList ++ (mf.s ++ ':' :: ml.s) := by
        rw [h]; simp
      exact List.append_cancel_left h0
    subst hx
    exact Or.inr ⟨mf, hmf, ml, hml, strchr_cut_some _ _ _ (facility_tab_ok mf hmf).2.2.2.1⟩
  · have := hp.2.2.2
    simp at this
  · have := congrArg List.length h
    simp at this
    subst this
    exact absurd h (by decide)

theorem match_token (s : Str) (tab : List match_t) (h : ¬ _match s tab < 0) :
    ∃ m ∈ tab, m.s = s := by
  rcases match_code s tab with e | ⟨m, hm, hs, -⟩
  · rw [e] at h; exact absurd (by decide) h
  · exact ⟨m, hm, hs⟩

theorem selectedBackend_colon (P : Platform) (x : Str) :
    selectedBackend P ("syslog:".toList ++ x) = dest_t.DEST_SYSLOG := by
  simp [selectedBackend]

theorem fac_token_mem (mf : match_t) (hf : mf ∈ facility_tab) : mf.s ∈ facility_tokens := by
  have e1 : facility_tokens = facility_tab.map match_t.s := by decide
  rw [e1]
  exact List.mem_map_of_mem _ hf

theorem sev_token_mem (ml : match_t) (hl : ml ∈ level_tab) : ml.s ∈ severity_tokens := by
  have e2 : severity_tokens = level_tab.map match_t.s := by decide
  rw [e2]
  exact List.mem_map_of_mem _ hl

theorem verr_cases (P : Platform) (st : Sink) (e : Int) (m : Str) :
    (∃ st1, _verr P st e m = Outcome.ret st1) ∨
    (st.dest = dest_t.DEST_LOGF ∧ st.logf = none ∧ _verr P st e m = Outcome.fault st) := by
  unfold _verr
  dsimp only
  rcases hd : st.dest
  · rcases hl : st.logf with _ | f
    · right; simp
    · left; simp
  · left; simp
  · left; dsimp only; split_ifs <;> simp

/-- The three ways `err_set_dest` ends. -/
theorem err_set_dest_cases (P : Platform) (st : Sink) (s : Str) :
    (Selectable P s ∧ ∃ st1, err_set_dest P st s = Outcome.ret st1 ∧
      st1.dest = selectedBackend P s) ∨
    (¬ Selectable P s ∧ ∃ st1, err_set_dest P st s = Outcome.exit 1 st1) ∨
    (¬ Selectable P s ∧ st.dest = dest_t.DEST_LOGF ∧ st.logf = none ∧
      ∃ st1, err_set_dest P st s = Outcome.fault st1) := by
  by_cases h1 : s = "syslog".toList
  · subst h1
    exact Or.inl ⟨Or.inl (Or.inr (Or.inr (Or.inl rfl))), _, set_syslog P st, rfl⟩
  by_cases h2 : "syslog:".toList.isPrefixOf s = true
  · rw [prefix_split s h2]
    generalize s.drop 7 = x
    rw [selectedBackend_colon]
    by_cases hn : _match (strchr_cut ':' x).1 facility_tab < 0
    · right; left
      refine ⟨fun hv => ?_, ?_⟩
      · rcases selectable_colon P x hv with ⟨mf, hmf, e⟩ | ⟨mf, hmf, ml, -, e⟩ <;>
          · rw [e, (facility_tab_ok mf hmf).1] at hn
            exact absurd hn (not_lt.mpr (facility_tab_ok mf hmf).2.2.1)
      · rw [err_set_dest_colon]
        simp [_set_syslog_facility, hn, msg_exit]
    · obtain ⟨mf, hmf, emf⟩ := match_token _ _ hn
      rcases strchr_cut_spec ':' x with ⟨e, -⟩ | ⟨a, l, e, hx, ha⟩
      · rw [e] at emf
        subst emf
        left
        exact ⟨Or.inl (Or.inr (Or.inr (Or.inr (Or.inl ⟨mf.s, fac_token_mem mf hmf, rfl⟩)))),
          _, set_fac P st mf hmf, rfl⟩
      · rw [e] at emf
        subst emf
        subst hx
        by_cases hm : _match l level_tab < 0
        · right; left
          refine ⟨fun hv => ?_, ?_⟩
          · rcases selectable_colon P _ hv with ⟨mf2, -, e2⟩ | ⟨mf2, -, ml, hml, e2⟩
            · rw [e] at e2; simp at e2
            · rw [e] at e2
              simp only [Prod.mk.injEq, Option.some.injEq] at e2
              rw [e2.2, (level_tab_ok ml hml).1] at hm
              exact absurd hm (not_lt.mpr (level_tab_ok ml hml).2.2.1)
          · rw [err_set_dest_colon, e]
            simp [_set_syslog_facility, _set_syslog_level, (facility_tab_ok mf hmf).1,
              not_lt.mpr (facility_tab_ok mf hmf).2.2.1, hm, msg_exit]
        · obtain ⟨ml, hml, eml⟩ := match_token _ _ hm
          subst eml
          left
          have e3 : err_set_dest P st ("syslog:".toList ++ (mf.s ++ ':' :: ml.s)) =
              Outcome.ret { (err_fini st) with
                syslog_facility := mf.n
                syslog_level := ml.n
                dest := dest_t.DEST_SYSLOG
                trace := (err_fini st).trace ++ [Event.openlog st.prog mf.n] } := by
            simpa using set_fac_lev P st mf ml hmf hml
          exact ⟨Or.inl (Or.inr (Or.inr (Or.inr (Or.inr (Or.inl
            ⟨mf.s, fac_token_mem mf hmf, ml.s, sev_token_mem ml hml, by simp⟩))))), _, e3, rfl⟩
  · have h2f : "syslog:".toList.isPrefixOf s = false := Bool.eq_false_iff.mpr h2
    by_cases h3 : P.HAVE_CEREBRO_H = true ∧ s = "cerebro".toList
    · left
      obtain ⟨h3a, rfl⟩ := h3
      exact ⟨Or.inr ⟨h3a, rfl⟩, _, set_cerebro P st h3a, by simp [selectedBackend, h3a]⟩
    have hb : selectedBackend P s = dest_t.DEST_LOGF := by
      unfold selectedBackend
      rw [if_neg (fun h => h.elim h1 h2), if_neg h3]
    by_cases h4 : s = "stderr".toList
    · left
      subst h4
      exact ⟨Or.inl (Or.inr (Or.inl rfl)), _, set_stderr P st, by rw [hb]⟩
    by_cases h5 : s = "stdout".toList
    · left
      subst h5
      exact ⟨Or.inl (Or.inl rfl), _, set_stdout P st, by rw [hb]⟩
    have hp : IsPath s := ⟨h5, h4, h1, h2f⟩
    rcases ho : P.fopen_a s with _ | e
    · left
      exact ⟨Or.inl (Or.inr (Or.inr (Or.inr (Or.inr (Or.inr ⟨hp, ho⟩))))), _,
        set_path P st s hp h3 ho, by rw [hb]⟩
    · have hv : ¬ Selectable P s := by
        rintro ((h | h | h | ⟨fac, -, h⟩ | ⟨fac, -, sev, -, h⟩ | ⟨-, h⟩) | h)
        · exact h5 h
        · exact h4 h
        · exact h1 h
        · subst h; simp at h2f
        · subst h; simp at h2f
        · rw [ho] at h; simp at h
        · exact h3 h
      have hr : err_set_dest P st s =
          (_verr P ((err_fini st).emit (Event.fopen s none)) e
            ("could not open ".toList ++ s ++ " for writing".toList)).thenExit := by
        unfold err_set_dest
        simp only [h1, h2, h3, h4, h5, ho, if_false, Bool.false_eq_true, err_exit]
      rcases verr_cases P ((err_fini st).emit (Event.fopen s none)) e
          ("could not open ".toList ++ s ++ " for writing".toList) with ⟨st1, hq⟩ | ⟨q1, q2, hq⟩
      · right; left
        exact ⟨hv, st1, by rw [hr, hq]; rfl⟩
      · right; right
        refine ⟨hv, by simpa [Sink.emit] using q1, by simpa [Sink.emit] using q2,
          (err_fini st).emit (Event.fopen s none), ?_⟩
        rw [hr, hq]; rfl


/-- C8, amended. For every state of the sink and every selector `s`: `err_set_dest (s)`
returns if and only if `s` is a valid selector of the specification or, in a build with the
monitoring bus, the word `cerebro`; when it returns, the backend `s` names is installed;
and on every other `s` it ends the process with `exit (1)`, as long as the File variant is
not active with its stream still unset. -/
theorem err_set_dest_fails_iff (P : Platform) (st : Sink) (s : Str) :
    ((∃ st1, err_set_dest P st s = Outcome.ret st1) ↔ Selectable P s) ∧
    (∀ st1, err_set_dest P st s = Outcome.ret st1 → st1.dest = selectedBackend P s) ∧
    (¬ Selectable P s → (st.dest = dest_t.DEST_LOGF → st.logf ≠ none) →
      ∃ st1, err_set_dest P st s = Outcome.exit 1 st1) := by
  rcases err_set_dest_cases P st s with ⟨hv, st1, e, hd⟩ | ⟨hv, st1, e⟩ | ⟨hv, q1, q2, st1, e⟩
  · refine ⟨⟨fun _ => hv, fun _ => ⟨st1, e⟩⟩, ?_, fun h => absurd hv h⟩
    intro st2 e2
    rw [e] at e2
    injection e2 with e2
    subst e2
    exact hd
  · refine ⟨⟨fun ⟨st2, e2⟩ => ?_, fun h => absurd h hv⟩, ?_, fun _ _ => ⟨st1, e⟩⟩
    · rw [e] at e2; simp at e2
    · intro st2 e2
      rw [e] at e2; simp at e2
  · refine ⟨⟨fun ⟨st2, e2⟩ => ?_, fun h => absurd h hv⟩, ?_, fun _ h => absurd q2 (h q1)⟩
    · rw [e] at e2; simp at e2
    · intro st2 e2
      rw [e] at e2; simp at e2

/-- C8, as stated, fails: in a build with the monitoring bus, `cerebro` is none of
`syslog`, `syslog:...`, `stdout`, `stderr` and cannot be opened for append on the example
platform, yet `err_set_dest ("cerebro")` returns, with the monitoring bus installed. -/
theorem cerebro_selector_returns :
    "cerebro".toList ≠ "syslog".toList ∧ "syslog:".toList.isPrefixOf "cerebro".toList = false ∧
    "cerebro".toList ≠ "stdout".toList ∧ "cerebro".toList ≠ "stderr".toList ∧
    tmpPlatform.fopen_a "cerebro".toList = some 13 ∧
    err_set_dest tmpPlatform stdoutSink "cerebro".toList =
      Outcome.ret { stdoutSink with dest := dest_t.DEST_CEREBRO } := by
  decide

/-- C8, amended, at the selector `syslog:bogus` on the sink set to `stdout`. -/
theorem err_set_dest_fails_iff_witness :
    ¬ Selectable tmpPlatform "syslog:bogus".toList ∧
    (stdoutSink.dest = dest_t.DEST_LOGF → stdoutSink.logf ≠ none) ∧
    ∃ st1, err_set_dest tmpPlatform stdoutSink "syslog:bogus".toList = Outcome.exit 1 st1 :=
  ⟨by decide, by decide,
    (err_set_dest_fails_iff tmpPlatform stdoutSink "syslog:bogus".toList).2.2
      (by decide) (by decide)⟩

/-! ## The record dispatcher -/


theorem eqInt_one_two (v : CFloat) (h1 : v.eqInt 1 = true) : v.eqInt 2 = false := by
  simp only [CFloat.eqInt, Bool.and_eq_true, bne_iff_ne, ne_eq, beq_iff_eq] at h1
  simp only [CFloat.eqInt, Bool.and_eq_false_iff, beq_eq_false_iff_ne, ne_eq]
  right
  obtain ⟨hd, hn⟩ := h1
  omega

/-- A version equal to an integer that fits in an `int` is converted to that integer. -/
theorem eqInt_toInt (v : CFloat) (k : Int) (h : v.eqInt k = true)
    (hk : INT_MIN ≤ k ∧ k ≤ INT_MAX) : v.toInt = k := by
  simp only [CFloat.eqInt, Bool.and_eq_true, bne_iff_ne, ne_eq, beq_iff_eq] at h
  obtain ⟨hd, hn⟩ := h
  have ht : Int.tdiv v.num v.den = k := by
    rw [hn]
    exact Int.mul_tdiv_cancel _ (by exact_mod_cast hd)
  simp only [CFloat.toInt, CFloat.integerPart, hd, if_false, ht, hk, and_self, if_true]

theorem route_eq_lookup (name : Str) (v : CFloat) : route name v = lookup name v := by
  have hx : v.eqInt 1 = true → v.eqInt 2 = false := eqInt_one_two v
  unfold route lookup registry
  simp only [List.find?]
  by_cases n1 : name = "lmt_ost".toList
  · subst n1
    rcases e1 : v.eqInt 1 with _ | _ <;> rcases e2 : v.eqInt 2 with _ | _ <;>
      simp_all
  by_cases n2 : name = "lmt_mdt".toList
  · subst n2
    rcases e1 : v.eqInt 1 with _ | _ <;> rcases e2 : v.eqInt 2 with _ | _ <;>
      simp_all
  by_cases n3 : name = "lmt_router".toList
  · subst n3
    rcases e1 : v.eqInt 1 with _ | _ <;> rcases e2 : v.eqInt 2 with _ | _ <;>
      simp_all
  by_cases n4 : name = "lmt_mds".toList
  · subst n4
    rcases e1 : v.eqInt 1 with _ | _ <;> rcases e2 : v.eqInt 2 with _ | _ <;>
      simp_all
  by_cases n5 : name = "lmt_oss".toList
  · subst n5
    rcases e1 : v.eqInt 1 with _ | _ <;> rcases e2 : v.eqInt 2 with _ | _ <;>
      simp_all
  simp_all


theorem lookup_some_iff (name : Str) (v : CFloat) (d : Decoder) :
    lookup name v = some d ↔ Registered name v d := by
  unfold lookup Registered
  constructor
  · intro h
    rw [Option.map_eq_some'] at h
    obtain ⟨r, hr, rfl⟩ := h
    have hm := List.mem_of_find?_eq_some hr
    have hp := List.find?_some hr
    simp only [Bool.and_eq_true, decide_eq_true_eq] at hp
    refine ⟨r.2.1, ?_, hp.2⟩
    rw [hp.1]
    exact hm
  · rintro ⟨k, hk, hv⟩
    have hx : v.eqInt 1 = true → v.eqInt 2 = false := eqInt_one_two v
    unfold registry at hk
    simp only [registry, List.find?]
    simp only [List.mem_cons, Prod.mk.injEq, List.mem_singleton, List.not_mem_nil,
      or_false] at hk
    rcases hk with h | h | h | h | h | h <;> obtain ⟨hn, hk2, hd⟩ := h <;> subst hn hk2 hd <;>
    rcases e1 : v.eqInt 1 with _ | _ <;> rcases e2 : v.eqInt 2 with _ | _ <;> simp_all


theorem parseCalls_append (a b : List DiagEvent) :
    parseCalls (a ++ b) = parseCalls a ++ parseCalls b := by
  induction a with
  | nil => rfl
  | cons e a ih => cases e <;> simp [parseCalls, ih]

/-- A registered pair is registered under its cut version. -/
theorem registered_truncated (name : Str) (v : CFloat) (d : Decoder)
    (h : Registered name v d) : (name, v.toInt, d) ∈ registry := by
  obtain ⟨k, hk, e⟩ := h
  have hr : INT_MIN ≤ k ∧ k ≤ INT_MAX := by
    have h12 : k = 1 ∨ k = 2 := by
      simp only [registry, List.mem_cons, Prod.mk.injEq, List.mem_singleton,
        List.not_mem_nil, or_false] at hk
      rcases hk with h | h | h | h | h | h <;> simp [h.2.1]
    rcases h12 with rfl | rfl <;> decide
  rw [eqInt_toInt v k e hr]
  exact hk

theorem route_none_of_unregistered (name : Str) (v : CFloat)
    (h : ∀ d, ¬ Registered name v d) : route name v = none := by
  rw [route_eq_lookup]
  rcases hl : lookup name v with _ | d
  · rfl
  · exact absurd ((lookup_some_iff name v d).mp hl) (h d)

/-- C4, as stated, fails: the record `lmt_ost` with the version `2.5` is handed to no
decoder and is reported as `lmt_ost_v2: unknown metric version`, while the record with
the version `2` is handed to `_parse_ost_v2`. -/
theorem fractional_version_not_routed :
    demoCollab.sscanf_f "2.5;x".toList = some ⟨25, 10⟩ ∧
    (⟨25, 10⟩ : CFloat).toInt = 2 ∧
    check_one demoCollab "lmtdiagnose".toList { errno := 0, out := [] }
        ⟨"lmt_ost".toList, some "2.5;x".toList⟩ =
      { errno := 0, out :=
        [DiagEvent.fprintf_stderr 267
          "lmtdiagnose: lmt_ost_v2: unknown metric version\n".toList] } ∧
    check_one demoCollab "lmtdiagnose".toList { errno := 0, out := [] }
        ⟨"lmt_ost".toList, some "2;x".toList⟩ =
      { errno := 0, out :=
        [DiagEvent.parse Decoder.ost_v2 "2;x".toList (-1),
         DiagEvent.fprintf_stderr 272 "lmtdiagnose: lmt_ost_v2: Unknown error\n".toList] } := by
  decide

/-- C4, amended. For every record with a value whose version token parses to `v`:
`check_cerebro` routes on the name and on `v` itself, compared for equality with the
registered integers, so the record is handed to a decoder exactly when its pair is
registered for it; and a record whose version is no integer is handed to no decoder and
reported as an unknown metric version, the cut integer `(int)v` appearing in the report
only. -/
theorem exact_version_routing (C : Collab) (prog : Str) (st : Scan) (c : cmetric_t)
    (val : Str) (v : CFloat) (hval : c.val = some val) (hv : C.sscanf_f val = some v) :
    (∀ d, route c.name v = some d ↔ Registered c.name v d) ∧
    (∀ d, Registered c.name v d →
      parseCalls (check_one C prog st c).out = parseCalls st.out ++ [(d, val)]) ∧
    ((∀ k : Int, v.eqInt k = false) →
      check_one C prog st c = st.emit (DiagEvent.fprintf_stderr 267
        (prog ++ ": ".toList ++ c.name ++ "_v".toList ++ fmt_d v.toInt
          ++ ": unknown metric version\n".toList))) := by
  refine ⟨fun d => by rw [route_eq_lookup]; exact lookup_some_iff c.name v d, ?_, ?_⟩
  · intro d hd
    have hr : route c.name v = some d := by
      rw [route_eq_lookup]; exact (lookup_some_iff c.name v d).mpr hd
    unfold check_one
    simp only [hval, hv, hr]
    split_ifs <;> simp [Scan.emit, parseCalls_append, parseCalls]
  · intro hk
    have hr : route c.name v = none :=
      route_none_of_unregistered c.name v (fun d ⟨k, _, e⟩ => by rw [hk k] at e; simp at e)
    unfold check_one
    simp only [hval, hv, hr]


/-- C4, amended, at the record `lmt_ost` with the version `2.5`. -/
theorem exact_version_routing_witness :
    (⟨"lmt_ost".toList, some "2.5;x".toList⟩ : cmetric_t).val = some "2.5;x".toList ∧
    demoCollab.sscanf_f "2.5;x".toList = some ⟨25, 10⟩ ∧
    (∀ k : Int, (⟨25, 10⟩ : CFloat).eqInt k = false) ∧
    check_one demoCollab "lmtdiagnose".toList { errno := 0, out := [] }
        ⟨"lmt_ost".toList, some "2.5;x".toList⟩ =
      { errno := 0, out :=
        [DiagEvent.fprintf_stderr 267
          "lmtdiagnose: lmt_ost_v2: unknown metric version\n".toList] } :=
  have h : ∀ k : Int, (⟨25, 10⟩ : CFloat).eqInt k = false := by
    intro k
    simp only [CFloat.eqInt, Bool.and_eq_false_iff, beq_eq_false_iff_ne, ne_eq]
    right
    omega
  ⟨rfl, by decide, h,
    (exact_version_routing demoCollab "lmtdiagnose".toList { errno := 0, out := [] }
      ⟨"lmt_ost".toList, some "2.5;x".toList⟩ "2.5;x".toList ⟨25, 10⟩ rfl (by decide)).2.2 h⟩

/-- C5, as stated, fails: the record `lmt_ost` with the version `3000000000` has an
unregistered pair and is reported on one line, but the integer in the line is
`-2147483648`, what the conversion to `int` gives, and not the integer version
`3000000000` of the record. -/
theorem huge_version_misreported :
    demoCollab.sscanf_f "3000000000;x".toList = some ⟨3000000000, 1⟩ ∧
    lookup "lmt_ost".toList ⟨3000000000, 1⟩ = none ∧
    (⟨3000000000, 1⟩ : CFloat).integerPart = some 3000000000 ∧
    check_one demoCollab "lmtdiagnose".toList { errno := 0, out := [] }
        ⟨"lmt_ost".toList, some "3000000000;x".toList⟩ =
      { errno := 0, out :=
        [DiagEvent.fprintf_stderr 267
          "lmtdiagnose: lmt_ost_v-2147483648: unknown metric version\n".toList] } ∧
    check_one demoCollab "lmtdiagnose".toList { errno := 0, out := [] }
        ⟨"lmt_ost".toList, some "3000000000;x".toList⟩ ≠
      { errno := 0, out :=
        [DiagEvent.fprintf_stderr 267
          "lmtdiagnose: lmt_ost_v3000000000: unknown metric version\n".toList] } := by
  decide

/-- C5, amended. Unknown metric version: for every record with a value whose version token
parses to `v` and whose pair of name and version is registered for no decoder, one turn of
the loop calls no decoder and reports exactly the line
`prog: name_v<d>: unknown metric version`, where `d` is the conversion `(int)v`, and the
loop goes on with the next record; when `v` is a number whose integer part fits in an
`int`, `d` is that integer part. (A pair whose integer version is not registered is such a
pair.) -/
theorem unknown_version_reported (C : Collab) (prog : Str) (st : Scan) (c : cmetric_t)
    (rest : List cmetric_t) (val : Str) (v : CFloat) (hval : c.val = some val)
    (hv : C.sscanf_f val = some v) (hu : ∀ d, ¬ Registered c.name v d) :
    check_one C prog st c = st.emit (DiagEvent.fprintf_stderr 267
      (prog ++ ": ".toList ++ c.name ++ "_v".toList ++ fmt_d v.toInt
        ++ ": unknown metric version\n".toList)) ∧
    check_loop C prog st (c :: rest) =
      check_loop C prog (st.emit (DiagEvent.fprintf_stderr 267
        (prog ++ ": ".toList ++ c.name ++ "_v".toList ++ fmt_d v.toInt
          ++ ": unknown metric version\n".toList))) rest ∧
    (∀ t, v.integerPart = some t → INT_MIN ≤ t → t ≤ INT_MAX → v.toInt = t) := by
  have hr : route c.name v = none := route_none_of_unregistered c.name v hu
  have h1 : check_one C prog st c = st.emit (DiagEvent.fprintf_stderr 267
      (prog ++ ": ".toList ++ c.name ++ "_v".toList ++ fmt_d v.toInt
        ++ ": unknown metric version\n".toList)) := by
    unfold check_one
    simp only [hval, hv, hr]
  refine ⟨h1, by simp only [check_loop, h1], ?_⟩
  intro t ht h1 h2
  simp only [CFloat.toInt, ht, h1, h2, and_self, if_true]

/-- C5, amended, at the record `lmt_ost` with the version `3`. -/
theorem unknown_version_reported_witness :
    (⟨"lmt_ost".toList, some "3;x".toList⟩ : cmetric_t).val = some "3;x".toList ∧
    demoCollab.sscanf_f "3;x".toList = some ⟨3, 1⟩ ∧
    (∀ d, ¬ Registered "lmt_ost".toList ⟨3, 1⟩ d) ∧
    (⟨3, 1⟩ : CFloat).integerPart = some 3 ∧ INT_MIN ≤ 3 ∧ 3 ≤ INT_MAX ∧
    (⟨3, 1⟩ : CFloat).toInt = 3 ∧
    check_one demoCollab "lmtdiagnose".toList { errno := 0, out := [] }
        ⟨"lmt_ost".toList, some "3;x".toList⟩ =
      { errno := 0, out :=
        [DiagEvent.fprintf_stderr 267
          "lmtdiagnose: lmt_ost_v3: unknown metric version\n".toList] } :=
  have h : ∀ d, ¬ Registered "lmt_ost".toList ⟨3, 1⟩ d := by
    intro d hd
    have e := (lookup_some_iff _ _ d).mpr hd
    have e0 : lookup "lmt_ost".toList ⟨3, 1⟩ = none := by decide
    rw [e0] at e
    exact absurd e (by simp)
  have w := unknown_version_reported demoCollab "lmtdiagnose".toList { errno := 0, out := [] }
    ⟨"lmt_ost".toList, some "3;x".toList⟩ [] "3;x".toList ⟨3, 1⟩ rfl (by decide) h
  ⟨rfl, by decide, h, by decide, by decide, by decide,
    w.2.2 3 (by decide) (by decide) (by decide), w.1⟩

/-- C9. Exit status of a scan: for every result of the fetch (with any batch) and every
result of the catalog, `main` ends through `exit`, with status 0 or 1, and the status is 0
if and only if the fetch succeeded and the catalog gave at least one database. -/
theorem main_exit_status (C : Collab) (prog : Str) (errno : Int) (fetch : Fetched)
    (cat : Catalog) :
    ∃ n st, main C prog errno fetch cat = DiagOutcome.exit n st ∧ (n = 0 ∨ n = 1) ∧
      (n = 0 ↔ (∃ l, fetch = Fetched.ok l) ∧ ∃ dbs, cat = Catalog.ok dbs ∧ dbs ≠ []) := by
  rcases fetch with ⟨errstr, e⟩ | l
  · exact ⟨1, _, rfl, Or.inr rfl, by simp⟩
  · rcases cat with ⟨errstr, e⟩ | dbs
    · exact ⟨1, _, rfl, Or.inr rfl, by simp⟩
    · rcases dbs with _ | ⟨db, dbs⟩
      · exact ⟨1, _, rfl, Or.inr rfl, by simp⟩
      · exact ⟨0, _, rfl, Or.inl rfl, by simp⟩

theorem check_one_mysql (C : Collab) (prog : Str) (st : Scan) (c : cmetric_t) :
    (check_one C prog st c).out.countP isMysqlName = st.out.countP isMysqlName := by
  unfold check_one
  rcases c.val with _ | val
  · rfl
  · dsimp only
    rcases C.sscanf_f val with _ | v
    · simp [Scan.emit, List.countP_append, isMysqlName]
    · dsimp only
      rcases route c.name v with _ | d
      · simp [Scan.emit, List.countP_append, isMysqlName]
      · dsimp only
        split_ifs <;> simp [Scan.emit, List.countP_append, isMysqlName]

theorem check_loop_mysql (C : Collab) (prog : Str) (l : List cmetric_t) :
    ∀ st : Scan, (check_loop C prog st l).out.countP isMysqlName = st.out.countP isMysqlName := by
  induction l with
  | nil => intro st; rfl
  | cons c cs ih =>
    intro st
    simp only [check_loop]
    rw [ih, check_one_mysql]

/-- C10. Fatal short-circuit: when the fetch fails, `main` exits with status 1 after the
call of `lmt_cbr_get_metrics` and one report (no decoder call, no report on a record, no
call of `lmt_db_create_all`); and when the catalog gives no database, `main` exits with
status 1 and its trace holds no `mysql: name` line. -/
theorem fatal_short_circuit (C : Collab) (prog : Str) (errno : Int) (errstr : Option Str)
    (e : Int) (cat : Catalog) (l : List cmetric_t) :
    main C prog errno (Fetched.error errstr e) cat =
      DiagOutcome.exit 1 { errno := e, out :=
        [DiagEvent.lmt_cbr_get_metrics,
         DiagEvent.fprintf_stderr 236
           (prog ++ ": lmt_ost: ".toList ++ errtext C errstr e ++ "\n".toList)] } ∧
    ∃ st, main C prog errno (Fetched.ok l) (Catalog.ok []) = DiagOutcome.exit 1 st ∧
      st.out.countP isMysqlName = 0 := by
  refine ⟨rfl, _, rfl, ?_⟩
  simp [Scan.emit, List.countP_append, isMysqlName, check_loop_mysql]

/-! ## The emit operations on every backend -/


/-- C15, on the code: in the initial state the File variant is active with `logf` still
`NULL`; `errn` and `err` write through it (`_verr` has no test of `logf`), whatever the
message and the error number, while `msg` sets `logf` to `stderr` first and writes its
line there. -/
theorem errn_initial_faults (P : Platform) (e : Int) (m : Str) :
    Sink.initial.dest = dest_t.DEST_LOGF ∧ Sink.initial.logf = none ∧
    errn P Sink.initial e m = Outcome.fault Sink.initial ∧
    err P Sink.initial e m = Outcome.fault Sink.initial ∧
    msg P Sink.initial m = { Sink.initial with
      logf := some FILEp.stderr
      trace := [Event.fprintf FILEp.stderr
        (Sink.initial.prog ++ ": ".toList ++ snprintf 256 m ++ "\n".toList),
        Event.fflush FILEp.stderr] } := by
  refine ⟨rfl, rfl, rfl, rfl, rfl⟩

theorem snprintf_idem (n : Nat) (m : Str) : snprintf n (m.take (n - 1)) = snprintf n m := by
  simp [snprintf, List.take_take]

/-- C17. Silent truncation of long messages: on every backend `msg` and `errn` do with a
message exactly what they do with its first 255 bytes, which are the whole message when it
has at most 255 bytes; on a File stream the line written is the program name, `: `, these
bytes, for `errn` `: ` and the description in `errbuf`, and the newline, with nothing
marking the cut. -/
theorem long_message_cut (P : Platform) (st : Sink) (e : Int) (m : Str) :
    msg P st m = msg P st (m.take 255) ∧
    errn P st e m = errn P st e (m.take 255) ∧
    (m.length ≤ 255 → m.take 255 = m) ∧
    (∀ f, st.dest = dest_t.DEST_LOGF → st.logf = some f →
      msg P st m = { st with trace := st.trace ++
        [Event.fprintf f (st.prog ++ ": ".toList ++ m.take 255 ++ "\n".toList),
         Event.fflush f] } ∧
      errn P st e m = Outcome.ret { st with trace := st.trace ++
        [Event.fprintf f (st.prog ++ ": ".toList ++ m.take 255 ++ ": ".toList ++
          strerror_r P e 64 ++ "\n".toList),
         Event.fflush f] }) := by
  have h : snprintf 256 (m.take 255) = snprintf 256 m := snprintf_idem 256 m
  refine ⟨?_, ?_, List.take_of_length_le, ?_⟩
  · simp only [msg, _vlog, h]
  · simp only [errn, _verr, h]
  · intro f hd hf
    constructor
    · simp [msg, _vlog, hd, hf, snprintf, Sink.emit]
    · simp [errn, _verr, hd, hf, snprintf, Sink.emit]

/-- C17, at a message of 300 bytes on the sink set to `stdout`. -/
theorem long_message_cut_witness :
    stdoutSink.dest = dest_t.DEST_LOGF ∧ stdoutSink.logf = some FILEp.stdout ∧
    255 < (List.replicate 300 'x').length ∧
    msg tmpPlatform stdoutSink (List.replicate 300 'x') = { stdoutSink with trace :=
      stdoutSink.trace ++
        [Event.fprintf FILEp.stdout
          (stdoutSink.prog ++ ": ".toList ++ (List.replicate 300 'x').take 255 ++ "\n".toList),
         Event.fflush FILEp.stdout] } :=
  ⟨rfl, rfl, by rw [List.length_replicate]; decide,
    ((long_message_cut tmpPlatform stdoutSink 11 (List.replicate 300 'x')).2.2.2
      FILEp.stdout rfl rfl).1⟩

/-- C13, as stated, fails: on the sink set to `syslog:local3:notice`, `msg ("hello")`
hands the text `hello` to `syslog`, not `lmtd: hello`; the program name went to `openlog`
as the ident. -/
theorem syslog_text_has_no_program_name :
    run tmpPlatform Sink.initial
        [Call.err_init "/usr/sbin/lmtd".toList, Call.err_set_dest "syslog:local3:notice".toList]
      = Outcome.ret syslogSink ∧
    msg tmpPlatform syslogSink "hello".toList =
      { syslogSink with trace :=
        [Event.openlog "lmtd".toList LOG_LOCAL3, Event.syslog LOG_NOTICE "hello".toList] } ∧
    msg tmpPlatform syslogSink "hello".toList ≠
      { syslogSink with trace :=
        [Event.openlog "lmtd".toList LOG_LOCAL3,
         Event.syslog LOG_NOTICE ("lmtd".toList ++ ": ".toList ++ "hello".toList)] } := by
  decide

/-- C13, amended. The text handed to the backend, for every message `m` and error number
`e`, with `m'` the first 255 bytes of `m` and `d` the first 63 bytes of `strerror (e)`:
on a File stream `msg` writes `prog: m'` and `errn` writes `prog: m': d`, each with a
newline and followed by a flush; on the System Log and on the monitoring bus `msg` hands
over `m'` and `errn` hands over `m': d`, without the program name. -/
theorem backend_texts (P : Platform) (st : Sink) (e : Int) (m : Str) :
    (∀ f, st.dest = dest_t.DEST_LOGF → st.logf = some f →
      msg P st m = (st.emit (Event.fprintf f
        (st.prog ++ ": ".toList ++ m.take 255 ++ "\n".toList))).emit (Event.fflush f) ∧
      errn P st e m = Outcome.ret ((st.emit (Event.fprintf f
        (st.prog ++ ": ".toList ++ m.take 255 ++ ": ".toList ++ (P.strerror e).take 63
          ++ "\n".toList))).emit (Event.fflush f))) ∧
    (st.dest = dest_t.DEST_SYSLOG →
      msg P st m = st.emit (Event.syslog st.syslog_level (m.take 255)) ∧
      errn P st e m = Outcome.ret (st.emit (Event.syslog st.syslog_level
        (m.take 255 ++ ": ".toList ++ (P.strerror e).take 63)))) ∧
    (st.dest = dest_t.DEST_CEREBRO → P.HAVE_CEREBRO_H = true →
      msg P st m = st.emit (Event.cerebro_err_output (m.take 255)) ∧
      errn P st e m = Outcome.ret (st.emit (Event.cerebro_err_output
        (m.take 255 ++ ": ".toList ++ (P.strerror e).take 63)))) := by
  refine ⟨fun f hd hf => ⟨?_, ?_⟩, fun hd => ⟨?_, ?_⟩, fun hd hc => ⟨?_, ?_⟩⟩
  · simp [msg, _vlog, hd, hf, snprintf, Sink.emit]
  · simp [errn, _verr, hd, hf, snprintf, strerror_r, Sink.emit]
  · simp [msg, _vlog, hd, snprintf]
  · simp [errn, _verr, hd, snprintf, strerror_r]
  · simp [msg, _vlog, hd, hc, snprintf]
  · simp [errn, _verr, hd, hc, snprintf, strerror_r]

/-- C13, amended, at `msg ("hello")` and `errn (EAGAIN, "hello")` on the sink set to
`syslog:local3:notice`. -/
theorem backend_texts_witness :
    syslogSink.dest = dest_t.DEST_SYSLOG ∧
    msg tmpPlatform syslogSink "hello".toList =
      syslogSink.emit (Event.syslog syslogSink.syslog_level ("hello".toList.take 255)) ∧
    errn tmpPlatform syslogSink 11 "hello".toList =
      Outcome.ret (syslogSink.emit (Event.syslog syslogSink.syslog_level
        ("hello".toList.take 255 ++ ": ".toList ++ (tmpPlatform.strerror 11).take 63))) :=
  ⟨rfl, (backend_texts tmpPlatform syslogSink 11 "hello".toList).2.1 rfl⟩

/-- C14, on the code: after `err_set_dest ("/tmp/a.log")`, the failing
`err_set_dest ("syslog:bogus")` closes the stream in `err_fini` and then writes its
diagnostic to that stream; and after `err_set_dest ("syslog")`, the failing
`err_set_dest ("syslog:local0:bogus")` calls `closelog`, installs the facility `local0`
and only then reports the unknown level. -/
theorem failed_selection_writes_to_closed_stream :
    run tmpPlatform Sink.initial
        [Call.err_set_dest "/tmp/a.log".toList, Call.err_set_dest "syslog:bogus".toList] =
      Outcome.exit 1
        { Sink.initial with
          filename := some "/tmp/a.log".toList
          logf := some (FILEp.file 0)
          opened := 1
          trace :=
            [Event.fopen "/tmp/a.log".toList (some (FILEp.file 0)),
             Event.fclose (FILEp.file 0),
             Event.fprintf (FILEp.file 0)
               "<unknown>: unknown syslog facility: bogus\n".toList,
             Event.fflush (FILEp.file 0)] } ∧
    run tmpPlatform Sink.initial
        [Call.err_set_dest "syslog".toList, Call.err_set_dest "syslog:local0:bogus".toList] =
      Outcome.exit 1
        { Sink.initial with
          dest := dest_t.DEST_SYSLOG
          syslog_facility := LOG_LOCAL0
          trace :=
            [Event.openlog "<unknown>".toList LOG_DAEMON,
             Event.closelog,
             Event.syslog LOG_ERR "unknown syslog level: bogus".toList] } := by
  decide

/-! ## The syslog parameters -/


/-- Each token of the two lists has a code that is not negative, is given back by
`_rmatch`, and is the code of no other token. -/
theorem token_codes :
    (∀ t ∈ facility_tokens, 0 ≤ _match t facility_tab ∧
      _rmatch (_match t facility_tab) facility_tab = some t) ∧
    (∀ t ∈ severity_tokens, 0 ≤ _match t level_tab ∧
      _rmatch (_match t level_tab) level_tab = some t) ∧
    (∀ t ∈ facility_tokens, ∀ u ∈ facility_tokens,
      _match t facility_tab = _match u facility_tab → t = u) ∧
    (∀ t ∈ severity_tokens, ∀ u ∈ severity_tokens,
      _match t level_tab = _match u level_tab → t = u) := by
  refine ⟨by decide, by decide, ?_, ?_⟩
  · intro t ht u hu h
    have a := (by decide : ∀ t ∈ facility_tokens,
      _rmatch (_match t facility_tab) facility_tab = some t)
    have := a t ht
    rw [h, a u hu] at this
    exact (Option.some.inj this).symm
  · intro t ht u hu h
    have a := (by decide : ∀ t ∈ severity_tokens,
      _rmatch (_match t level_tab) level_tab = some t)
    have := a t ht
    rw [h, a u hu] at this
    exact (Option.some.inj this).symm

/-- C18. In every state the sink can reach, `syslog_facility` is the code of an entry of
`facility_tab` and `syslog_level` the code of an entry of `level_tab`; `_match` gives each
token of the tables a code that is not negative and that no other token has, and `_rmatch`
gives the token back; so in the System Log variant `err_get_dest` gives
`syslog:<facility>:<severity>` with both tokens from the tables. -/
theorem reachable_syslog_tokens (P : Platform) (st : Sink) (h : Reachable P st) :
    (∃ m ∈ facility_tab, m.n = st.syslog_facility) ∧
    (∃ m ∈ level_tab, m.n = st.syslog_level) ∧
    (∀ t ∈ facility_tokens, 0 ≤ _match t facility_tab ∧
      _rmatch (_match t facility_tab) facility_tab = some t) ∧
    (∀ t ∈ severity_tokens, 0 ≤ _match t level_tab ∧
      _rmatch (_match t level_tab) level_tab = some t) ∧
    (∀ t ∈ facility_tokens, ∀ u ∈ facility_tokens,
      _match t facility_tab = _match u facility_tab → t = u) ∧
    (∀ t ∈ severity_tokens, ∀ u ∈ severity_tokens,
      _match t level_tab = _match u level_tab → t = u) ∧
    (st.dest = dest_t.DEST_SYSLOG →
      ∃ fac ∈ facility_tokens, ∃ sev ∈ severity_tokens,
        err_get_dest st = some ("syslog:".toList ++ fac ++ ":".toList ++ sev)) := by
  obtain ⟨⟨mf, hmf, emf⟩, ⟨ml, hml, eml⟩⟩ := reachable_codes P st h
  obtain ⟨t1, t2, t3, t4⟩ := token_codes
  refine ⟨⟨mf, hmf, emf⟩, ⟨ml, hml, eml⟩, t1, t2, t3, t4, fun hd => ?_⟩
  exact ⟨mf.s, fac_token_mem mf hmf, ml.s, sev_token_mem ml hml,
    get_syslog st mf ml hmf hml hd emf.symm eml.symm⟩

/-- C18, at the sink set to `syslog:local3:notice`. -/
theorem reachable_syslog_tokens_witness :
    Reachable tmpPlatform syslogSink ∧ syslogSink.dest = dest_t.DEST_SYSLOG ∧
    ∃ fac ∈ facility_tokens, ∃ sev ∈ severity_tokens,
      err_get_dest syslogSink = some ("syslog:".toList ++ fac ++ ":".toList ++ sev) :=
  have h : Reachable tmpPlatform syslogSink :=
    ⟨[Call.err_init "/usr/sbin/lmtd".toList, Call.err_set_dest "syslog:local3:notice".toList],
      by decide⟩
  ⟨h, rfl, (reachable_syslog_tokens tmpPlatform syslogSink h).2.2.2.2.2.2 rfl⟩

/-- A selection that does not install the System Log leaves both syslog parameters. -/
theorem err_set_dest_keeps_syslog (P : Platform) (st st1 : Sink) (s : Str)
    (hr : err_set_dest P st s = Outcome.ret st1) (hd : st1.dest ≠ dest_t.DEST_SYSLOG) :
    st1.syslog_facility = st.syslog_facility ∧ st1.syslog_level = st.syslog_level := by
  have hsel : selectedBackend P s ≠ dest_t.DEST_SYSLOG := by
    rcases err_set_dest_cases P st s with ⟨-, st2, e, hb⟩ | ⟨-, st2, e⟩ | ⟨-, -, -, st2, e⟩
    · rw [e] at hr
      injection hr with hr
      subst hr
      rwa [hb] at hd
    · rw [e] at hr; simp at hr
    · rw [e] at hr; simp at hr
  have h12 : ¬ (s = "syslog".toList ∨ "syslog:".toList.isPrefixOf s = true) := by
    intro h
    apply hsel
    unfold selectedBackend
    rw [if_pos h]
  have h1 : ¬ s = "syslog".toList := fun h => h12 (Or.inl h)
  have h2 : ¬ "syslog:".toList.isPrefixOf s = true := fun h => h12 (Or.inr h)
  unfold err_set_dest at hr
  simp only [h1, h2, if_false, Bool.false_eq_true] at hr
  split_ifs at hr
  · injection hr with hr; subst hr; simp
  · injection hr with hr; subst hr; simp
  · injection hr with hr; subst hr; simp
  · rcases ho : P.fopen_a s with _ | e
    · simp only [ho] at hr
      injection hr with hr
      subst hr
      rcases hl : st.logf with _ | g
      · simp [Sink.emit, hl]
      · by_cases hg : g ≠ FILEp.stdout ∧ g ≠ FILEp.stderr <;> simp [Sink.emit, hl, hg]
    · simp only [ho, err_exit] at hr
      exact absurd hr (thenExit_ne_ret _ _)

/-- C19. Syslog parameters are sticky: from every state, `err_set_dest ("syslog")` returns
with the facility and the severity it found; `err_set_dest ("syslog:<facility>")` returns
with the code of the facility and the severity it found; every selection that returns with
another backend than the System Log leaves both; and the static initialisers are `daemon`
and `err`. -/
theorem syslog_parameters_sticky (P : Platform) (st : Sink) :
    (∃ st1, err_set_dest P st "syslog".toList = Outcome.ret st1 ∧
      st1.dest = dest_t.DEST_SYSLOG ∧
      st1.syslog_facility = st.syslog_facility ∧ st1.syslog_level = st.syslog_level) ∧
    (∀ fac ∈ facility_tokens, ∃ st1,
      err_set_dest P st ("syslog:".toList ++ fac) = Outcome.ret st1 ∧
      st1.dest = dest_t.DEST_SYSLOG ∧
      st1.syslog_facility = _match fac facility_tab ∧ st1.syslog_level = st.syslog_level) ∧
    (∀ s st1, err_set_dest P st s = Outcome.ret st1 → st1.dest ≠ dest_t.DEST_SYSLOG →
      st1.syslog_facility = st.syslog_facility ∧ st1.syslog_level = st.syslog_level) ∧
    (Sink.initial.syslog_facility = LOG_DAEMON ∧ Sink.initial.syslog_level = LOG_ERR) := by
  refine ⟨⟨_, set_syslog P st, rfl, by simp, by simp⟩, ?_,
    fun s st1 hr hd => err_set_dest_keeps_syslog P st st1 s hr hd, rfl, rfl⟩
  intro fac hfac
  obtain ⟨mf, hmf, rfl⟩ := mem_facility_tokens hfac
  exact ⟨_, set_fac P st mf hmf, rfl, (facility_tab_ok mf hmf).1.symm, by simp⟩

/-- C19, at `err_set_dest ("stdout")` on the sink set to `syslog:local3:notice`. -/
theorem syslog_parameters_sticky_witness :
    err_set_dest tmpPlatform syslogSink "stdout".toList =
      Outcome.ret { syslogSink with
        dest := dest_t.DEST_LOGF
        logf := some FILEp.stdout
        trace := [Event.openlog "lmtd".toList LOG_LOCAL3, Event.closelog] } ∧
    dest_t.DEST_LOGF ≠ dest_t.DEST_SYSLOG ∧
    ({ syslogSink with
        dest := dest_t.DEST_LOGF
        logf := some FILEp.stdout
        trace := [Event.openlog "lmtd".toList LOG_LOCAL3, Event.closelog] } : Sink).syslog_facility
      = syslogSink.syslog_facility ∧
    ({ syslogSink with
        dest := dest_t.DEST_LOGF
        logf := some FILEp.stdout
        trace := [Event.openlog "lmtd".toList LOG_LOCAL3, Event.closelog] } : Sink).syslog_level
      = syslogSink.syslog_level :=
  have h : err_set_dest tmpPlatform syslogSink "stdout".toList =
      Outcome.ret { syslogSink with
        dest := dest_t.DEST_LOGF
        logf := some FILEp.stdout
        trace := [Event.openlog "lmtd".toList LOG_LOCAL3, Event.closelog] } := by decide
  ⟨h, by decide,
    (syslog_parameters_sticky tmpPlatform syslogSink).2.2.1 "stdout".toList _ h (by decide)⟩

/-- The configuration a bare `syslog` installs depends on what was selected before. -/
theorem bare_syslog_depends_on_history :
    (run tmpPlatform Sink.initial [Call.err_set_dest "syslog".toList]).state.syslog_facility
      = LOG_DAEMON ∧
    (run tmpPlatform Sink.initial [Call.err_set_dest "syslog".toList]).state.syslog_level
      = LOG_ERR ∧
    (run tmpPlatform Sink.initial
      [Call.err_set_dest "syslog:local3:notice".toList, Call.err_set_dest "stdout".toList,
       Call.err_set_dest "syslog".toList]).state.syslog_facility = LOG_LOCAL3 ∧
    (run tmpPlatform Sink.initial
      [Call.err_set_dest "syslog:local3:notice".toList, Call.err_set_dest "stdout".toList,
       Call.err_set_dest "syslog".toList]).state.syslog_level = LOG_NOTICE := by
  decide

/-! ## The dispatcher and the sink, the catalog, records without a value -/


/-- C11, on the code: the value `2`, a number that no `;` follows, is given no
version-parse failure and is handed to `_parse_ost_v2`; the value `1x;a;b;c` is handed to
`_parse_oss_v1`. The call `sscanf (val, "%f;", &vers)` returns 1 as soon as the number is
read. -/
theorem version_without_semicolon_accepted :
    demoCollab.sscanf_f "2".toList = some ⟨2, 1⟩ ∧
    check_one demoCollab "lmtdiagnose".toList { errno := 0, out := [] }
        ⟨"lmt_ost".toList, some "2".toList⟩ =
      { errno := 0, out :=
        [DiagEvent.parse Decoder.ost_v2 "2".toList (-1),
         DiagEvent.fprintf_stderr 272 "lmtdiagnose: lmt_ost_v2: Unknown error\n".toList] } ∧
    demoCollab.sscanf_f "1x;a;b;c".toList = some ⟨1, 1⟩ ∧
    check_one demoCollab "lmtdiagnose".toList { errno := 0, out := [] }
        ⟨"lmt_oss".toList, some "1x;a;b;c".toList⟩ =
      { errno := 0, out := [DiagEvent.parse Decoder.oss_v1 "1x;a;b;c".toList 0] } := by
  decide

/-- The version parse on the code: a record on whose value `sscanf` does not return 1 is
reported on line 250, handed to no decoder, and the loop goes on; a record on whose value it
returns 1 gets no such report. -/
theorem version_parse_failure (C : Collab) (prog : Str) (st : Scan) (c : cmetric_t)
    (rest : List cmetric_t) (val : Str) (hval : c.val = some val) :
    (C.sscanf_f val = none →
      check_one C prog st c = st.emit (DiagEvent.fprintf_stderr 250
        (prog ++ ": error parsing metric version\n".toList)) ∧
      check_loop C prog st (c :: rest) =
        check_loop C prog (st.emit (DiagEvent.fprintf_stderr 250
          (prog ++ ": error parsing metric version\n".toList))) rest) ∧
    (C.sscanf_f val ≠ none →
      (check_one C prog st c).out.countP isVersionParseFailure
        = st.out.countP isVersionParseFailure) := by
  constructor
  · intro hs
    have h1 : check_one C prog st c = st.emit (DiagEvent.fprintf_stderr 250
        (prog ++ ": error parsing metric version\n".toList)) := by
      unfold check_one
      simp only [hval, hs]
    exact ⟨h1, by simp only [check_loop, h1]⟩
  · intro hs
    unfold check_one
    simp only [hval]
    rcases hv : C.sscanf_f val with _ | v
    · exact absurd hv hs
    · dsimp only
      rcases route c.name v with _ | d
      · simp [Scan.emit, List.countP_append, isVersionParseFailure]
      · dsimp only
        split_ifs <;> simp [Scan.emit, List.countP_append, isVersionParseFailure]

/-- One turn of the loop adds only reports that start with the program name. -/
theorem check_one_own (C : Collab) (prog : Str) (st : Scan) (c : cmetric_t)
    (h : ∀ e ∈ st.out, isOwnReport prog e) :
    ∀ e ∈ (check_one C prog st c).out, isOwnReport prog e := by
  unfold check_one
  rcases c.val with _ | val
  · exact h
  · dsimp only
    rcases C.sscanf_f val with _ | v
    · intro e he
      simp only [Scan.emit, List.mem_append, List.mem_singleton] at he
      rcases he with he | rfl
      · exact h e he
      · simp [isOwnReport]
    · dsimp only
      rcases route c.name v with _ | d
      · intro e he
        simp only [Scan.emit, List.mem_append, List.mem_singleton] at he
        rcases he with he | rfl
        · exact h e he
        · simp [isOwnReport]
      · dsimp only
        split_ifs
        · intro e he
          simp only [Scan.emit, List.mem_append, List.mem_singleton] at he
          rcases he with (he | rfl) | rfl
          · exact h e he
          · trivial
          · simp [isOwnReport]
        · intro e he
          simp only [Scan.emit, List.mem_append, List.mem_singleton] at he
          rcases he with he | rfl
          · exact h e he
          · trivial

theorem check_loop_own (C : Collab) (prog : Str) (l : List cmetric_t) :
    ∀ st : Scan, (∀ e ∈ st.out, isOwnReport prog e) →
      ∀ e ∈ (check_loop C prog st l).out, isOwnReport prog e := by
  induction l with
  | nil => intro st h; exact h
  | cons c cs ih =>
    intro st h
    exact ih _ (check_one_own C prog st c h)

theorem mysql_loop_out (prog : Str) (dbs : List Str) :
    ∀ st : Scan, mysql_loop prog st dbs =
      { st with out := st.out ++ dbs.map (fun db =>
        DiagEvent.fprintf_stderr 302 (prog ++ ": mysql: ".toList ++ db ++ "\n".toList)) } := by
  induction dbs with
  | nil => intro st; simp [mysql_loop]
  | cons db dbs ih =>
    intro st
    simp [mysql_loop, ih, Scan.emit]

theorem main_own (C : Collab) (prog : Str) (errno : Int) (fetch : Fetched) (cat : Catalog) :
    ∀ e ∈ (main C prog errno fetch cat).state.out, isOwnReport prog e := by
  rcases fetch with ⟨errstr, en⟩ | l
  · intro e he
    simp only [main, check_cerebro, Scan.emit, DiagOutcome.state, List.nil_append,
      List.cons_append, List.mem_cons, List.not_mem_nil, or_false] at he
    rcases he with rfl | rfl
    · trivial
    · simp [isOwnReport]
  · have h1 : ∀ e ∈ (check_loop C prog
        (({ errno := errno, out := [] } : Scan).emit DiagEvent.lmt_cbr_get_metrics) l).out,
        isOwnReport prog e := by
      apply check_loop_own
      intro e he
      simp only [Scan.emit, List.nil_append, List.mem_singleton] at he
      subst he
      trivial
    rcases cat with ⟨errstr, en⟩ | dbs
    · intro e he
      simp only [main, check_cerebro, check_mysql, Scan.emit, DiagOutcome.state,
        List.mem_append, List.mem_singleton] at he
      rcases he with (he | rfl) | rfl
      · exact h1 e he
      · trivial
      · simp [isOwnReport]
    · rcases dbs with _ | ⟨db, dbs⟩
      · intro e he
        simp only [main, check_cerebro, check_mysql, Scan.emit, DiagOutcome.state,
          List.isEmpty_nil, if_true, List.mem_append, List.mem_singleton] at he
        rcases he with (he | rfl) | rfl
        · exact h1 e he
        · trivial
        · simp [isOwnReport]
      · intro e he
        simp only [main, check_cerebro, check_mysql, DiagOutcome.state, List.isEmpty_cons,
          Bool.false_eq_true, if_false, mysql_loop_out, Scan.emit, List.mem_append,
          List.mem_singleton, List.mem_map] at he
        rcases he with (he | rfl) | ⟨x, -, rfl⟩
        · exact h1 e he
        · trivial
        · simp [isOwnReport]

/-- C12, amended. The reports of the dispatcher do not pass through the sink: whatever the
state of the sink, `main` of `lmtdiagnose.c` leaves it as it is, does the same calls and
writes the same reports, each of them an `fprintf` on the standard error stream of a line
that starts with the program name of `lmtdiagnose` itself. -/
theorem dispatcher_reports_bypass_sink (C : Collab) (prog : Str) (sink sink2 : Sink)
    (errno : Int) (fetch : Fetched) (cat : Catalog) :
    (diagnose C prog sink errno fetch cat).1 = sink ∧
    (diagnose C prog sink errno fetch cat).2 = (diagnose C prog sink2 errno fetch cat).2 ∧
    ∀ e ∈ (diagnose C prog sink errno fetch cat).2.state.out, isOwnReport prog e :=
  ⟨rfl, rfl, main_own C prog errno fetch cat⟩

/-- C12, as stated, fails: with the sink set to `stdout` under the program name `lmtd`, the
soft failure and the catalog name are written to the standard error stream under the name
`lmtdiagnose`, and nothing reaches the sink. -/
theorem dispatcher_report_not_in_sink :
    run tmpPlatform Sink.initial
        [Call.err_init "/usr/sbin/lmtd".toList, Call.err_set_dest "stdout".toList]
      = Outcome.ret stdoutSink ∧
    diagnose demoCollab "lmtdiagnose".toList stdoutSink 0
        (Fetched.ok [⟨"lmt_ost".toList, some "3;x".toList⟩]) (Catalog.ok ["fs1".toList]) =
      (stdoutSink, DiagOutcome.exit 0 { errno := 0, out :=
        [DiagEvent.lmt_cbr_get_metrics,
         DiagEvent.fprintf_stderr 267 "lmtdiagnose: lmt_ost_v3: unknown metric version\n".toList,
         DiagEvent.lmt_db_create_all,
         DiagEvent.fprintf_stderr 302 "lmtdiagnose: mysql: fs1\n".toList] }) ∧
    stdoutSink.trace = [] := by
  decide

/-- C16. Catalog names are all reported: for a list of databases that is not empty,
`check_mysql` returns after the call of `lmt_db_create_all` and one line
`prog: mysql: <name>` for each database, in the order of the list; when the connection
fails, or the list is empty, it writes one report and calls `exit (1)`. -/
theorem catalog_names_reported (C : Collab) (prog : Str) (st : Scan) :
    (∀ dbs, dbs ≠ [] → check_mysql C prog st (Catalog.ok dbs) =
      DiagOutcome.ret { st with out := (st.out ++ DiagEvent.lmt_db_create_all ::
        dbs.map (fun db =>
          DiagEvent.fprintf_stderr 302
            (prog ++ ": mysql: ".toList ++ db ++ "\n".toList))) }) ∧
    (∀ errstr errno, check_mysql C prog st (Catalog.error errstr errno) =
      DiagOutcome.exit 1 { errno := errno, out := st.out ++
        [DiagEvent.lmt_db_create_all,
         DiagEvent.fprintf_stderr 290
           (prog ++ ": ".toList ++ errtext C errstr errno ++ "\n".toList)] }) ∧
    check_mysql C prog st (Catalog.ok []) =
      DiagOutcome.exit 1 { st with out := st.out ++
        [DiagEvent.lmt_db_create_all,
         DiagEvent.fprintf_stderr 294
           (prog ++ ": mysql has no file systems configured\n".toList)] } := by
  refine ⟨?_, ?_, ?_⟩
  · intro dbs hne
    rcases dbs with _ | ⟨db, dbs⟩
    · exact absurd rfl hne
    · simp [check_mysql, mysql_loop_out, Scan.emit]
  · intro errstr errno
    simp [check_mysql, Scan.emit]
  · simp [check_mysql, Scan.emit]

/-- C16, at a catalog of two databases. -/
theorem catalog_names_reported_witness :
    ["fs1".toList, "fs2".toList] ≠ [] ∧
    check_mysql demoCollab "lmtdiagnose".toList { errno := 0, out := [] }
        (Catalog.ok ["fs1".toList, "fs2".toList]) =
      DiagOutcome.ret { errno := 0, out :=
        [DiagEvent.lmt_db_create_all,
         DiagEvent.fprintf_stderr 302 "lmtdiagnose: mysql: fs1\n".toList,
         DiagEvent.fprintf_stderr 302 "lmtdiagnose: mysql: fs2\n".toList] } :=
  ⟨by decide,
    (catalog_names_reported demoCollab "lmtdiagnose".toList { errno := 0, out := [] }).1
      ["fs1".toList, "fs2".toList] (by decide)⟩

/-- C20. Records without a value are skipped silently: for a record whose value is `NULL`,
one turn of the loop leaves the state of the scan as it is (no version parsed, no decoder
called, nothing reported), the loop goes on with the next record, and the record counts
neither as a bad record nor as a record to decode. -/
theorem valueless_record_skipped (C : Collab) (prog : Str) (st : Scan) (c : cmetric_t)
    (rest : List cmetric_t) (h : c.val = none) :
    check_one C prog st c = st ∧
    check_loop C prog st (c :: rest) = check_loop C prog st rest ∧
    badRecord C c = false ∧ expectedCall C c = none := by
  have h1 : check_one C prog st c = st := by
    unfold check_one
    simp only [h]
  refine ⟨h1, by simp only [check_loop, h1], ?_, ?_⟩
  · simp [badRecord, h]
  · simp [expectedCall, h]

/-- C20, at a record `lmt_ost` without a value, followed by another record. -/
theorem valueless_record_skipped_witness :
    (⟨"lmt_ost".toList, none⟩ : cmetric_t).val = none ∧
    check_one demoCollab "lmtdiagnose".toList { errno := 0, out := [] }
        ⟨"lmt_ost".toList, none⟩ = { errno := 0, out := [] } ∧
    check_loop demoCollab "lmtdiagnose".toList { errno := 0, out := [] }
        [⟨"lmt_ost".toList, none⟩, ⟨"lmt_ost".toList, some "3;x".toList⟩] =
      check_loop demoCollab "lmtdiagnose".toList { errno := 0, out := [] }
        [⟨"lmt_ost".toList, some "3;x".toList⟩] :=
  have h := valueless_record_skipped demoCollab "lmtdiagnose".toList { errno := 0, out := [] }
    ⟨"lmt_ost".toList, none⟩ [⟨"lmt_ost".toList, some "3;x".toList⟩] rfl
  ⟨rfl, h.1, h.2.1⟩

end Lmt
